import Mathlib

/-!
Verification of the view/navigation/rendering engine of the `tig` terminal
repository browser (Go sources under `internal/ui`).  Go integers are
modelled as `Int`, runes as `Char`, the tcell modifier mask as `Nat`, and
fallible operations return `Option`/`Except`.  The external git backend
(`git.Client`) is modelled as a record of query results (a pure oracle),
matching its role as a black-box collaborator.  A Go runtime panic
(nil-pointer dereference, negative slice index, `% 0`) is modelled as
`Option.none`, and the view manager's self-deadlock on its own RWMutex
by an explicit outcome constructor.
-/

namespace Tig

/-- tcell key codes used by the UI package (a subset of `tcell.Key`;
`kRune` is `tcell.KeyRune`). -/
inductive Key where
  | kUp | kDown | kLeft | kRight | kPgUp | kPgDn | kHome | kEnd
  | kEnter | kEsc | kTab | kBackspace | kDelete | kRune
  deriving DecidableEq, Repr

instance : BEq Key := instBEqOfDecidableEq

/-- The zero rune (Go's zero value for `rune`). -/
def rune0 : Char := '\x00'

/-- Author/committer information (`git.Signature`; the timestamp is only
used for display formatting and is not part of any embedded operation). -/
structure Signature where
  name : String
  email : String
  deriving DecidableEq, Repr

/-- A Git commit (`git.Commit`; the fields consumed by the embedded
operations). -/
structure Commit where
  hash : String
  author : Signature
  message : String
  summary : String
  parents : List String
  deriving DecidableEq, Repr

/-- Per-file working-tree status (`git.FileStatus`). -/
structure FileStatus where
  path : String
  x : String
  y : String
  from_ : String
  isNew : Bool
  isDeleted : Bool
  isModified : Bool
  isRenamed : Bool
  isCopied : Bool
  isConflict : Bool
  isUntracked : Bool
  isAdded : Bool
  deriving DecidableEq, Repr

/-- Working-directory status (`git.Status`). -/
structure GitStatus where
  branch : String
  ahead : Int
  behind : Int
  staged : List FileStatus
  modified : List FileStatus
  untracked : List FileStatus
  conflict : List FileStatus
  deriving DecidableEq, Repr

/-- A repository file entry (`git.File`). -/
structure GFile where
  path : String
  isDir : Bool
  isBinary : Bool
  deriving DecidableEq, Repr

/-- A Git reference (`git.Ref`); `rtype` is the `RefType` enum value. -/
structure GitRef where
  name : String
  rtype : Int
  hash : String
  target : String
  deriving DecidableEq, Repr

/-- A Git remote (`git.Remote`; only the name is consumed by the UI). -/
structure Remote where
  name : String
  deriving DecidableEq, Repr

/-- The git backend collaborator (`git.Client` / `git.Repository`),
modelled as a pure oracle of query results.  `getRepository` models
`Client.GetRepository`; the per-repository queries model the methods the
views call after obtaining the handle.  Mutation results (`stageFile`,
...) are `none` on success and `some msg` on failure. -/
structure GitClient where
  isRepository : Bool
  getRepository : Except String Unit
  getStatus : Except String GitStatus
  getCommits : Except String (List Commit)
  getCommitDiff : String → Except String String
  getFiles : String → Except String (List GFile)
  getBranches : Except String (List GitRef)
  getTags : Except String (List GitRef)
  getRemotes : Except String (List Remote)
  getHead : Except String GitRef
  stageFile : String → Option String
  unstageFile : String → Option String
  stageAll : Option String
  unstageAll : Option String
  discardChanges : String → Option String

/-! ## Scrollable (status_view.go, `Scrollable`) -/

/-- Scroll state (`Scrollable`): current offset, maximum offset and
visible height. -/
structure Scrollable where
  offset : Int
  maxOffset : Int
  height : Int
  deriving DecidableEq, Repr

/-- `NewScrollable`: all fields are Go zero values. -/
def newScrollable : Scrollable := ⟨0, 0, 0⟩

namespace Scrollable

/-- `SetMaxOffset`: store the bound and clamp the offset down to it when it
exceeds the bound (no clamping of a negative bound). -/
def setMaxOffset (s : Scrollable) (max : Int) : Scrollable :=
  let s1 := { s with maxOffset := max }
  if s1.offset > max then { s1 with offset := max } else s1

/-- `SetHeight`. -/
def setHeight (s : Scrollable) (height : Int) : Scrollable :=
  { s with height := height }

/-- `SetOffset`: clamp below at 0, then above at `maxOffset`. -/
def setOffset (s : Scrollable) (offset : Int) : Scrollable :=
  let o1 := if offset < 0 then 0 else offset
  let o2 := if o1 > s.maxOffset then s.maxOffset else o1
  { s with offset := o2 }

/-- `ScrollUp`: one step up, stopping at 0. -/
def scrollUp (s : Scrollable) : Scrollable :=
  if s.offset > 0 then { s with offset := s.offset - 1 } else s

/-- `ScrollDown`: one step down, stopping at `maxOffset`. -/
def scrollDown (s : Scrollable) : Scrollable :=
  if s.offset < s.maxOffset then { s with offset := s.offset + 1 } else s

/-- `ScrollPageUp`: subtract the height, clamped below at 0. -/
def scrollPageUp (s : Scrollable) : Scrollable :=
  let o := s.offset - s.height
  { s with offset := if o < 0 then 0 else o }

/-- `ScrollPageDown`: add the height, clamped above at `maxOffset`. -/
def scrollPageDown (s : Scrollable) : Scrollable :=
  let o := s.offset + s.height
  { s with offset := if o > s.maxOffset then s.maxOffset else o }

/-- `ScrollToTop`. -/
def scrollToTop (s : Scrollable) : Scrollable := { s with offset := 0 }

/-- `ScrollToBottom`. -/
def scrollToBottom (s : Scrollable) : Scrollable := { s with offset := s.maxOffset }

/-- `IsAtTop`. -/
def isAtTop (s : Scrollable) : Bool := s.offset == 0

/-- `IsAtBottom`. -/
def isAtBottom (s : Scrollable) : Bool := s.offset == s.maxOffset

end Scrollable

/-- One call of the scroll contract named in the spec's offset-bound
invariant (`SetMaxOffset` carries its integer argument). -/
inductive ScrollOp where
  | up | down | pageUp | pageDown | toTop | toBottom
  | setMax (m : Int)
  deriving DecidableEq, Repr

/-- Apply one scroll call. -/
def ScrollOp.apply (s : Scrollable) : ScrollOp → Scrollable
  | .up => s.scrollUp
  | .down => s.scrollDown
  | .pageUp => s.scrollPageUp
  | .pageDown => s.scrollPageDown
  | .toTop => s.scrollToTop
  | .toBottom => s.scrollToBottom
  | .setMax m => s.setMaxOffset m

/-- Apply a sequence of scroll calls, left to right. -/
def applyScrollOps (s : Scrollable) (ops : List ScrollOp) : Scrollable :=
  ops.foldl ScrollOp.apply s

/-- The spec's offset-bound invariant, together with nonnegative height
(Go never stores a negative height in the embedded views). -/
def scrollInv (s : Scrollable) : Prop :=
  0 ≤ s.offset ∧ s.offset ≤ s.maxOffset ∧ 0 ≤ s.height

instance (s : Scrollable) : Decidable (scrollInv s) := by
  unfold scrollInv; infer_instance

/-! ## MainView (main_view.go) -/

/-- The commit-log view (`MainView`): BaseView geometry and focus flag,
embedded `Scrollable`, the cached commit list and the selection index. -/
structure MainView where
  x : Int
  y : Int
  width : Int
  height : Int
  focused : Bool
  scroll : Scrollable
  commits : List Commit
  selected : Int
  deriving DecidableEq, Repr

/-- `NewMainView` (geometry and focus are Go zero values). -/
def newMainView : MainView :=
  { x := 0, y := 0, width := 0, height := 0, focused := false
    scroll := newScrollable, commits := [], selected := 0 }

namespace MainView

/-- `BaseView.SetPosition`. -/
def setPosition (v : MainView) (x y width height : Int) : MainView :=
  { v with x := x, y := y, width := width, height := height }

/-- `getPageSize`: position height minus the two border rows. -/
def getPageSize (v : MainView) : Int := v.height - 2

/-- `moveUp`: decrement the selection and scroll up when it leaves the
visible window. -/
def moveUp (v : MainView) : MainView :=
  if v.selected > 0 then
    let v1 := { v with selected := v.selected - 1 }
    if v1.selected < v1.scroll.offset then { v1 with scroll := v1.scroll.scrollUp }
    else v1
  else v

/-- `moveDown`: increment the selection and scroll down when it passes the
last visible row. -/
def moveDown (v : MainView) : MainView :=
  if v.selected < (v.commits.length : Int) - 1 then
    let v1 := { v with selected := v.selected + 1 }
    let visibleEnd := v1.scroll.offset + v1.getPageSize
    if v1.selected ≥ visibleEnd then { v1 with scroll := v1.scroll.scrollDown }
    else v1
  else v

/-- `HandleKey`: unfocused views return false; otherwise the key switch,
falling through to the rune switch. -/
def handleKey (v : MainView) (key : Key) (ch : Char) (mods : Nat) : MainView × Bool :=
  if !v.focused then (v, false)
  else
    match key with
    | .kUp => (v.moveUp, true)
    | .kDown => (v.moveDown, true)
    | .kPgUp =>
        let v1 := { v with scroll := v.scroll.scrollPageUp }
        let s := v1.selected - v1.getPageSize
        ({ v1 with selected := if s < 0 then 0 else s }, true)
    | .kPgDn =>
        let v1 := { v with scroll := v.scroll.scrollPageDown }
        let s := v1.selected + v1.getPageSize
        ({ v1 with selected :=
            if s ≥ (v1.commits.length : Int) then (v1.commits.length : Int) - 1 else s }, true)
    | .kHome => ({ v with scroll := v.scroll.scrollToTop, selected := 0 }, true)
    | .kEnd =>
        ({ v with scroll := v.scroll.scrollToBottom,
                  selected := (v.commits.length : Int) - 1 }, true)
    | _ =>
      if ch == 'j' then (v.moveDown, true)
      else if ch == 'k' then (v.moveUp, true)
      else if ch == 'g' then ({ v with scroll := v.scroll.scrollToTop, selected := 0 }, true)
      else if ch == 'G' then
        ({ v with scroll := v.scroll.scrollToBottom,
                  selected := (v.commits.length : Int) - 1 }, true)
      else (v, false)

/-- `Refresh`: no repository resets to the empty state; a failing backend
query returns the error and leaves the cache untouched; success replaces
the commits and re-clamps the selection. -/
def refresh (v : MainView) (c : GitClient) : MainView × Option String :=
  if !c.isRepository then ({ v with commits := [], selected := 0 }, none)
  else
    match c.getRepository with
    | .error e => (v, some ("failed to get repository: " ++ e))
    | .ok _ =>
      match c.getCommits with
      | .error e => (v, some ("failed to get commits: " ++ e))
      | .ok cs =>
        let v1 := { v with commits := cs }
        let s1 := if v1.selected ≥ (v1.commits.length : Int)
                  then (v1.commits.length : Int) - 1 else v1.selected
        let s2 := if s1 < 0 then 0 else s1
        ({ v1 with selected := s2 }, none)

/-- `GetSelectedCommit`: `nil` outside `[0, len)`, the selected commit
otherwise. -/
def getSelectedCommit (v : MainView) : Option Commit :=
  if v.selected < 0 ∨ v.selected ≥ (v.commits.length : Int) then none
  else v.commits.get? v.selected.toNat

/-- The state effect of `renderCommits` (drawing elided): re-clamp the
selection, then recompute the scroll bound as `max(0, count - height)`. -/
def renderCommitsState (v : MainView) (height : Int) : MainView :=
  if v.commits.length = 0 then v
  else
    let s1 := if v.selected < 0 then 0 else v.selected
    let s2 := if s1 ≥ (v.commits.length : Int) then (v.commits.length : Int) - 1 else s1
    let v1 := { v with selected := s2 }
    { v1 with scroll := v1.scroll.setMaxOffset (max 0 ((v1.commits.length : Int) - height)) }

/-- The state effect of `Render`: store the geometry, set the scroll
height to `height - 2`, and when the content rectangle is non-degenerate
run `renderCommits` on it. -/
def render (v : MainView) (x y width height : Int) : MainView :=
  let v1 := (v.setPosition x y width height)
  let v2 := { v1 with scroll := v1.scroll.setHeight (height - 2) }
  if width - 2 ≤ 0 ∨ height - 2 ≤ 0 then v2
  else v2.renderCommitsState (height - 2)

end MainView

/-! ## DiffView (diff_view.go) -/

/-- The patch-text view (`DiffView`). -/
structure DiffView where
  x : Int
  y : Int
  width : Int
  height : Int
  focused : Bool
  scroll : Scrollable
  commitHash : String
  diff : String
  lines : List String
  deriving DecidableEq, Repr

/-- `NewDiffView`. -/
def newDiffView : DiffView :=
  { x := 0, y := 0, width := 0, height := 0, focused := false
    scroll := newScrollable, commitHash := "", diff := "", lines := [] }

namespace DiffView

/-- `getPageSize`: position height minus the two border rows. -/
def getPageSize (v : DiffView) : Int := v.height - 2

/-- `HandleKey`: unfocused views return false; otherwise pure scroll
operations. -/
def handleKey (v : DiffView) (key : Key) (ch : Char) (mods : Nat) : DiffView × Bool :=
  if !v.focused then (v, false)
  else
    match key with
    | .kUp => ({ v with scroll := v.scroll.scrollUp }, true)
    | .kDown => ({ v with scroll := v.scroll.scrollDown }, true)
    | .kPgUp => ({ v with scroll := v.scroll.scrollPageUp }, true)
    | .kPgDn => ({ v with scroll := v.scroll.scrollPageDown }, true)
    | .kHome => ({ v with scroll := v.scroll.scrollToTop }, true)
    | .kEnd => ({ v with scroll := v.scroll.scrollToBottom }, true)
    | _ =>
      if ch == 'j' then ({ v with scroll := v.scroll.scrollDown }, true)
      else if ch == 'k' then ({ v with scroll := v.scroll.scrollUp }, true)
      else if ch == 'g' then ({ v with scroll := v.scroll.scrollToTop }, true)
      else if ch == 'G' then ({ v with scroll := v.scroll.scrollToBottom }, true)
      else (v, false)

/-- `Refresh`: resets to the empty state when there is no repository or no
selected commit; a failing query returns the error and leaves the cache
untouched; success replaces the text and recomputes the scroll bound
(unclamped `count - pageSize`). -/
def refresh (v : DiffView) (c : GitClient) : DiffView × Option String :=
  if !c.isRepository then ({ v with diff := "", lines := [] }, none)
  else if v.commitHash == "" then ({ v with diff := "", lines := [] }, none)
  else
    match c.getRepository with
    | .error e => (v, some ("failed to get repository: " ++ e))
    | .ok _ =>
      match c.getCommitDiff v.commitHash with
      | .error e => (v, some ("failed to get commit diff: " ++ e))
      | .ok d =>
        let ls := d.splitOn "\n"
        let v1 := { v with diff := d, lines := ls }
        let v2 := { v1 with scroll := v1.scroll.setMaxOffset ((ls.length : Int) - v1.getPageSize) }
        let v3 := if v2.scroll.offset > (ls.length : Int) - v2.getPageSize
                  then { v2 with scroll := v2.scroll.setMaxOffset ((ls.length : Int) - v2.getPageSize) }
                  else v2
        (v3, none)

end DiffView

/-! ## StatusView (status_view.go) -/

/-- `formatStatus`: expand a porcelain status letter. -/
def formatStatus (status : String) : String :=
  if status == "M" then "modified"
  else if status == "A" then "new file"
  else if status == "D" then "deleted"
  else if status == "R" then "renamed"
  else if status == "C" then "copied"
  else if status == "?" then "untracked"
  else if status == "U" then "unmerged"
  else status

/-- `buildStatusLines`, as a function of the (non-nil) status record the
Go method reads from its receiver.  Line for line from the source; the
apostrophe is written `\x27`. -/
def buildStatusLines (s : GitStatus) : List String :=
  let lines : List String := []
  let lines :=
    if s.branch != "" then
      let lines := lines ++ ["On branch " ++ s.branch]
      let lines :=
        if s.ahead > 0 ∨ s.behind > 0 then
          let aheadBehind := "Your branch is ahead of \x27origin/" ++ s.branch ++ "\x27 by "
              ++ toString s.ahead ++ " commit(s)"
          let aheadBehind :=
            if s.behind > 0 then
              "Your branch is behind \x27origin/" ++ s.branch ++ "\x27 by "
                ++ toString s.behind ++ " commit(s)"
            else aheadBehind
          let aheadBehind :=
            if s.ahead > 0 ∧ s.behind > 0 then
              "Your branch and \x27origin/" ++ s.branch ++ "\x27 have diverged by "
                ++ toString s.ahead ++ " and " ++ toString s.behind ++ " commits respectively"
            else aheadBehind
          lines ++ [aheadBehind]
        else lines
      lines ++ [""]
    else lines
  let lines :=
    if s.staged.length > 0 then
      lines ++ ["Changes to be committed:", "  (use \"git reset HEAD <file>...\" to unstage)"]
        ++ s.staged.map (fun f => "\t" ++ formatStatus f.x ++ ": " ++ f.path) ++ [""]
    else lines
  let lines :=
    if s.modified.length > 0 then
      lines ++ ["Changes not staged for commit:",
          "  (use \"git add <file>...\" to update what will be committed)",
          "  (use \"git checkout -- <file>...\" to discard changes in working directory)"]
        ++ s.modified.map (fun f => "\t" ++ formatStatus f.y ++ ": " ++ f.path) ++ [""]
    else lines
  let lines :=
    if s.untracked.length > 0 then
      lines ++ ["Untracked files:",
          "  (use \"git add <file>...\" to include in what will be committed)"]
        ++ s.untracked.map (fun f => "\t" ++ f.path) ++ [""]
    else lines
  let lines :=
    if s.conflict.length > 0 then
      lines ++ ["Unmerged paths:", "  (use \"git add <file>...\" to mark resolution)"]
        ++ s.conflict.map (fun f => "\tboth modified: " ++ f.path) ++ [""]
    else lines
  let lines :=
    if s.staged.length = 0 ∧ s.modified.length = 0 ∧ s.untracked.length = 0
        ∧ s.conflict.length = 0 then
      lines ++ ["nothing to commit, working tree clean"]
    else
      let staged := s.staged.length
      let modified := s.modified.length
      let untracked := s.untracked.length
      let conflict := s.conflict.length
      let summary := "no changes added to commit"
      let summary :=
        if staged > 0 ∨ modified > 0 ∨ untracked > 0 ∨ conflict > 0 then
          let parts : List String :=
            (if staged > 0 then [toString staged ++ " staged"] else [])
              ++ (if modified > 0 then [toString modified ++ " modified"] else [])
              ++ (if untracked > 0 then [toString untracked ++ " untracked"] else [])
              ++ (if conflict > 0 then [toString conflict ++ " conflicted"] else [])
          String.intercalate ", " parts ++ " changes"
        else summary
      lines ++ [summary]
  lines ++ ["", "Key bindings:",
    "  a - stage/unstage selected file",
    "  u - unstage selected file",
    "  d - discard changes to selected file",
    "  A - stage all files",
    "  U - unstage all files",
    "  c - commit staged changes",
    "  s - switch display mode",
    "  q - quit"]

/-- The working-tree view (`StatusView`); `status = none` models the Go
nil pointer, `mode` the `StatusMode` enum value. -/
structure StatusView where
  x : Int
  y : Int
  width : Int
  height : Int
  focused : Bool
  scroll : Scrollable
  status : Option GitStatus
  selected : Int
  mode : Int
  deriving DecidableEq, Repr

/-- `NewStatusView` (mode starts at `StatusModeFiles = 0`). -/
def newStatusView : StatusView :=
  { x := 0, y := 0, width := 0, height := 0, focused := false
    scroll := newScrollable, status := none, selected := 0, mode := 0 }

namespace StatusView

/-- `getPageSize`: position height minus the two border rows. -/
def getPageSize (v : StatusView) : Int := v.height - 2

/-- `getAllFiles`: the file list of the current display mode. -/
def getAllFiles (v : StatusView) : List FileStatus :=
  match v.status with
  | none => []
  | some s =>
    if v.mode = 1 then s.staged
    else if v.mode = 2 then s.modified
    else if v.mode = 3 then s.untracked
    else if v.mode = 4 then s.conflict
    else s.staged ++ s.modified ++ s.untracked ++ s.conflict

/-- `GetSelectedFile`: `nil` when there is no status or the selection is
out of bounds. -/
def getSelectedFile (v : StatusView) : Option FileStatus :=
  match v.status with
  | none => none
  | some _ =>
    let files := v.getAllFiles
    if v.selected < 0 ∨ v.selected ≥ (files.length : Int) then none
    else files.get? v.selected.toNat

/-- `moveUp`. -/
def moveUp (v : StatusView) : StatusView :=
  if v.selected > 0 then
    let v1 := { v with selected := v.selected - 1 }
    if v1.selected < v1.scroll.offset then { v1 with scroll := v1.scroll.scrollUp }
    else v1
  else v

/-- `moveDown`: calls `buildStatusLines`, which dereferences the status
pointer — `none` models the Go panic on a nil status. -/
def moveDown (v : StatusView) : Option StatusView :=
  match v.status with
  | none => none
  | some s =>
    let lines := buildStatusLines s
    if v.selected < (lines.length : Int) - 1 then
      let v1 := { v with selected := v.selected + 1 }
      let visibleEnd := v1.scroll.offset + v1.getPageSize
      some (if v1.selected ≥ visibleEnd then { v1 with scroll := v1.scroll.scrollDown } else v1)
    else some v

/-- `toggleMode`: cycle through the five modes and jump to the top
(`Int.tmod` is Go's truncated `%`). -/
def toggleMode (v : StatusView) : StatusView :=
  { v with mode := (v.mode + 1).tmod 5, selected := 0, scroll := v.scroll.scrollToTop }

/-- `Refresh`: no repository resets to the explicit empty state; a failing
backend query returns the error and leaves the cache untouched; success
replaces the status, resets the selection and scrolls to the top. -/
def refresh (v : StatusView) (c : GitClient) : StatusView × Option String :=
  if !c.isRepository then ({ v with status := none, selected := 0 }, none)
  else
    match c.getRepository with
    | .error e => (v, some ("failed to get repository: " ++ e))
    | .ok _ =>
      match c.getStatus with
      | .error e => (v, some ("failed to get status: " ++ e))
      | .ok s =>
        ({ v with status := some s, selected := 0, scroll := v.scroll.scrollToTop }, none)

/-- `canUnstageSelectedFile`: the selected file appears in the staged
list. -/
def canUnstageSelectedFile (v : StatusView) : Bool :=
  match v.getSelectedFile with
  | none => false
  | some f =>
    match v.status with
    | none => false
    | some s => s.staged.any (fun st => st.path == f.path)

/-- `stageSelectedFile`. -/
def stageSelectedFile (v : StatusView) (c : GitClient) : StatusView × Option String :=
  match v.getSelectedFile with
  | none => (v, none)
  | some f =>
    if f.isUntracked || f.isModified then
      match c.stageFile f.path with
      | some e => (v, some ("failed to stage " ++ f.path ++ ": " ++ e))
      | none => v.refresh c
    else (v, none)

/-- `unstageSelectedFile`. -/
def unstageSelectedFile (v : StatusView) (c : GitClient) : StatusView × Option String :=
  match v.getSelectedFile with
  | none => (v, none)
  | some f =>
    if v.canUnstageSelectedFile then
      match c.unstageFile f.path with
      | some e => (v, some ("failed to unstage " ++ f.path ++ ": " ++ e))
      | none => v.refresh c
    else (v, none)

/-- `discardSelectedFile`. -/
def discardSelectedFile (v : StatusView) (c : GitClient) : StatusView × Option String :=
  match v.getSelectedFile with
  | none => (v, none)
  | some f =>
    if f.isModified then
      match c.discardChanges f.path with
      | some e => (v, some ("failed to discard changes to " ++ f.path ++ ": " ++ e))
      | none => v.refresh c
    else (v, none)

/-- `stageAllFiles`. -/
def stageAllFiles (v : StatusView) (c : GitClient) : StatusView × Option String :=
  match c.stageAll with
  | some e => (v, some ("failed to stage all files: " ++ e))
  | none => v.refresh c

/-- `unstageAllFiles`. -/
def unstageAllFiles (v : StatusView) (c : GitClient) : StatusView × Option String :=
  match c.unstageAll with
  | some e => (v, some ("failed to unstage all files: " ++ e))
  | none => v.refresh c

/-- `HandleKey`: unfocused views return false; the staging keys run the
mutation (discarding its error) and report handled; `none` models the Go
panic (nil status on `moveDown`). -/
def handleKey (v : StatusView) (c : GitClient) (key : Key) (ch : Char) (mods : Nat) :
    Option (StatusView × Bool) :=
  if !v.focused then some (v, false)
  else
    match key with
    | .kUp => some (v.moveUp, true)
    | .kDown => (v.moveDown).map (fun v1 => (v1, true))
    | .kPgUp => some ({ v with scroll := v.scroll.scrollPageUp }, true)
    | .kPgDn => some ({ v with scroll := v.scroll.scrollPageDown }, true)
    | .kHome => some ({ v with scroll := v.scroll.scrollToTop }, true)
    | .kEnd => some ({ v with scroll := v.scroll.scrollToBottom }, true)
    | _ =>
      if ch == 'j' then (v.moveDown).map (fun v1 => (v1, true))
      else if ch == 'k' then some (v.moveUp, true)
      else if ch == 'g' then some ({ v with scroll := v.scroll.scrollToTop }, true)
      else if ch == 'G' then some ({ v with scroll := v.scroll.scrollToBottom }, true)
      else if ch == 's' then some (v.toggleMode, true)
      else if ch == 'a' then some ((v.stageSelectedFile c).1, true)
      else if ch == 'u' then
        (if v.canUnstageSelectedFile then some ((v.unstageSelectedFile c).1, true)
         else some (v, true))
      else if ch == 'd' then some ((v.discardSelectedFile c).1, true)
      else if ch == 'A' then some ((v.stageAllFiles c).1, true)
      else if ch == 'U' then some ((v.unstageAllFiles c).1, true)
      else if ch == 'c' then some (v, true)
      else some (v, false)

/-- The state effect of `renderStatus` (drawing elided): recompute the
scroll bound as the unclamped `count - height` (twice when the offset
still exceeds it), then run the draw loop `for i := start; i < end`
over `lines[i]`.  When the clamped offset is negative and the loop body
executes, Go indexes the slice at a negative position and panics —
modelled as `none`. -/
def renderStatusState (v : StatusView) (height : Int) : Option StatusView :=
  match v.status with
  | none => some v
  | some s =>
    let lines := buildStatusLines s
    let v1 := { v with scroll := v.scroll.setMaxOffset ((lines.length : Int) - height) }
    let v2 :=
      if v1.scroll.offset > (lines.length : Int) - height then
        { v1 with scroll := v1.scroll.setMaxOffset ((lines.length : Int) - height) }
      else v1
    let start := v2.scroll.offset
    let stop :=
      if start + height > (lines.length : Int) then (lines.length : Int) else start + height
    if start < stop ∧ start < 0 then none else some v2

/-- The state effect of `Render`: store the geometry, set the scroll
height to `height - 2`, and when the content rectangle is non-degenerate
run `renderStatus` on it (`none` models its panic). -/
def render (v : StatusView) (x y width height : Int) : Option StatusView :=
  let v1 := { v with x := x, y := y, width := width, height := height }
  let v2 := { v1 with scroll := v1.scroll.setHeight (height - 2) }
  if width - 2 ≤ 0 ∨ height - 2 ≤ 0 then some v2
  else v2.renderStatusState (height - 2)

end StatusView

/-! ## TreeView (tree view source file) -/

/-- Simplified model of Go `filepath.Join` on clean slash-separated
relative paths (sufficient for the embedded tree navigation). -/
def pathJoin (a b : String) : String := if a == "" then b else a ++ "/" ++ b

/-- Simplified model of `filepath.Dir` on clean relative paths:
everything before the last slash, `"."` when there is no slash. -/
def pathDir (p : String) : String :=
  let parts := p.splitOn "/"
  if parts.length ≤ 1 then "." else String.intercalate "/" parts.dropLast

/-- Simplified model of `filepath.Base` on clean relative paths: the
component after the last slash. -/
def pathBase (p : String) : String :=
  match (p.splitOn "/").getLast? with
  | some b => b
  | none => p

/-- The `sort.Slice` comparator of `sortFiles`: directories first, then
by path. -/
def fileLess (a b : GFile) : Bool :=
  if a.isDir != b.isDir then a.isDir else decide (a.path < b.path)

/-- `sortFiles` (`sort.Slice` modelled as a merge sort over the same
ordering). -/
def sortFiles (fs : List GFile) : List GFile :=
  fs.mergeSort (fun a b => !(fileLess b a))

/-- The file-browser view (`TreeView`). -/
structure TreeView where
  x : Int
  y : Int
  width : Int
  height : Int
  focused : Bool
  scroll : Scrollable
  files : List GFile
  selected : Int
  currentPath : String
  rootPath : String
  repoPath : String
  deriving DecidableEq, Repr

/-- `NewTreeView`. -/
def newTreeView : TreeView :=
  { x := 0, y := 0, width := 0, height := 0, focused := false
    scroll := newScrollable, files := [], selected := 0
    currentPath := "", rootPath := "", repoPath := "" }

namespace TreeView

/-- `Load`: fetch and sort the file list of the current path (the Go nil
client check cannot fire in the model, where a client is always passed). -/
def load (v : TreeView) (c : GitClient) : TreeView × Option String :=
  match c.getFiles v.currentPath with
  | .error e => (v, some ("failed to get files: " ++ e))
  | .ok fs => ({ v with files := sortFiles fs }, none)

/-- `Refresh` = `Load`. -/
def refresh (v : TreeView) (c : GitClient) : TreeView × Option String := v.load c

/-- `moveUp`. -/
def moveUp (v : TreeView) : TreeView :=
  if v.selected > 0 then
    let v1 := { v with selected := v.selected - 1 }
    if v1.selected < v1.scroll.offset then { v1 with scroll := v1.scroll.setOffset v1.selected }
    else v1
  else v

/-- `moveDown` (`maxRows = height - 3`). -/
def moveDown (v : TreeView) : TreeView :=
  if v.selected < (v.files.length : Int) - 1 then
    let v1 := { v with selected := v.selected + 1 }
    let maxRows := v1.height - 3
    if v1.selected ≥ v1.scroll.offset + maxRows then
      { v1 with scroll := v1.scroll.setOffset (v1.selected - maxRows + 1) }
    else v1
  else v

/-- `moveTop`. -/
def moveTop (v : TreeView) : TreeView :=
  { v with selected := 0, scroll := v.scroll.setOffset 0 }

/-- `adjustScroll`. -/
def adjustScroll (v : TreeView) : TreeView :=
  let maxRows := v.height - 3
  if v.selected < v.scroll.offset then
    { v with scroll := v.scroll.setOffset v.selected }
  else if v.selected ≥ v.scroll.offset + maxRows then
    { v with scroll := v.scroll.setOffset (v.selected - maxRows + 1) }
  else v

/-- `moveBottom`. -/
def moveBottom (v : TreeView) : TreeView :=
  let s := (v.files.length : Int) - 1
  let v1 := { v with selected := if s < 0 then 0 else s }
  v1.adjustScroll

/-- `enterDirectory`: on a directory entry, descend and reload. -/
def enterDirectory (v : TreeView) (c : GitClient) : TreeView × Bool :=
  if v.selected < 0 ∨ v.selected ≥ (v.files.length : Int) then (v, false)
  else
    match v.files.get? v.selected.toNat with
    | none => (v, false)
    | some f =>
      if !f.isDir then (v, false)
      else
        let newPath := if v.currentPath == "" then f.path else pathJoin v.currentPath f.path
        let v1 := { v with currentPath := newPath }
        let v2 := (v1.load c).1
        ({ v2 with selected := 0, scroll := v2.scroll.setOffset 0 }, true)

/-- `goUpDirectory`: ascend one level, reload, and try to re-select the
directory just left. -/
def goUpDirectory (v : TreeView) (c : GitClient) : TreeView × Bool :=
  if v.currentPath == "" then (v, false)
  else
    let parent := pathDir v.currentPath
    let parent := if parent == "." then "" else parent
    let oldDir := pathBase v.currentPath
    let v1 := { v with currentPath := parent }
    let v2 := (v1.load c).1
    let v3 :=
      match v2.files.findIdx? (fun f => f.path == oldDir) with
      | some i => { v2 with selected := (i : Int) }
      | none => v2
    (v3.adjustScroll, true)

/-- `pageUp` (`pageSize = height - 3`). -/
def pageUp (v : TreeView) : TreeView :=
  let pageSize := v.height - 3
  let v1 := { v with selected := if v.selected ≥ pageSize then v.selected - pageSize else 0 }
  if v1.selected < v1.scroll.offset then
    { v1 with scroll := v1.scroll.setOffset v1.selected }
  else v1

/-- `pageDown`. -/
def pageDown (v : TreeView) : TreeView :=
  let pageSize := v.height - 3
  let v1 := { v with selected :=
      if v.selected + pageSize < (v.files.length : Int) then v.selected + pageSize
      else (v.files.length : Int) - 1 }
  v1.adjustScroll

/-- `HandleKey`: no focus check — a blurred TreeView still processes
keys. -/
def handleKey (v : TreeView) (c : GitClient) (key : Key) (ch : Char) (mods : Nat) :
    TreeView × Bool :=
  if key == .kUp || ch == 'k' then (v.moveUp, true)
  else if key == .kDown || ch == 'j' then (v.moveDown, true)
  else if key == .kHome || ch == 'g' then (v.moveTop, true)
  else if key == .kEnd || ch == 'G' then (v.moveBottom, true)
  else if key == .kPgUp then (v.pageUp, true)
  else if key == .kPgDn then (v.pageDown, true)
  else if key == .kEnter || key == .kRight then v.enterDirectory c
  else if key == .kLeft || ch == 'h' then v.goUpDirectory c
  else if ch == 'r' then ((v.load c).1, true)
  else if ch == 'q' then (v, false)
  else (v, false)

end TreeView

/-! ## RefsView (refs_view.go) -/

/-- A reference list entry (`RefItem`); `rtype` is the Go `Type` field. -/
structure RefItem where
  rtype : String
  name : String
  hash : String
  current : Bool
  remote : String
  upstream : String
  deriving DecidableEq, Repr

/-- The references view (`RefsView`). -/
structure RefsView where
  x : Int
  y : Int
  width : Int
  height : Int
  focused : Bool
  scroll : Scrollable
  branches : List RefItem
  tags : List RefItem
  remotes : List RefItem
  sections : List String
  currentSection : Int
  selected : Int
  repoPath : String
  deriving DecidableEq, Repr

/-- `NewRefsView`. -/
def newRefsView : RefsView :=
  { x := 0, y := 0, width := 0, height := 0, focused := false
    scroll := newScrollable, branches := [], tags := [], remotes := []
    sections := ["Branches", "Tags", "Remotes"], currentSection := 0
    selected := 0, repoPath := "" }

/-- `strings.TrimPrefix`. -/
def trimStart (s p : String) : String := if p.isPrefixOf s then s.drop p.length else s

/-- `convertRefs`: turn git refs into display items, marking the current
branch from `GetHead`. -/
def convertRefs (c : GitClient) (refs : List GitRef) (refType : String) : List RefItem :=
  let currentRef := match c.getHead with | .ok h => h.name | .error _ => ""
  refs.map fun r =>
    let name :=
      if refType == "branch" then trimStart r.name "refs/heads/"
      else if refType == "tag" then trimStart r.name "refs/tags/"
      else r.name
    { rtype := refType, name := name, hash := r.hash
      current := refType == "branch" && r.name == currentRef
      remote := "", upstream := "" }

/-- `convertRemotes`. -/
def convertRemotes (remotes : List Remote) : List RefItem :=
  remotes.map fun r =>
    { rtype := "remote", name := r.name, hash := "", current := false
      remote := r.name, upstream := "" }

namespace RefsView

/-- `Load`: fetch branches, tags and remotes; the first failure returns
its error with nothing assigned. -/
def load (v : RefsView) (c : GitClient) : RefsView × Option String :=
  match c.getBranches with
  | .error e => (v, some ("failed to get branches: " ++ e))
  | .ok bs =>
    match c.getTags with
    | .error e => (v, some ("failed to get tags: " ++ e))
    | .ok ts =>
      match c.getRemotes with
      | .error e => (v, some ("failed to get remotes: " ++ e))
      | .ok rs =>
        ({ v with branches := convertRefs c bs "branch"
                  tags := convertRefs c ts "tag"
                  remotes := convertRemotes rs }, none)

/-- `Refresh` = `Load`. -/
def refresh (v : RefsView) (c : GitClient) : RefsView × Option String := v.load c

/-- `getCurrentItems`. -/
def getCurrentItems (v : RefsView) : List RefItem :=
  if v.currentSection = 0 then v.branches
  else if v.currentSection = 1 then v.tags
  else if v.currentSection = 2 then v.remotes
  else []

/-- `moveUp`. -/
def moveUp (v : RefsView) : RefsView :=
  let items := v.getCurrentItems
  if v.selected > 0 then
    let v1 := { v with selected := v.selected - 1 }
    let v2 := if v1.selected < v1.scroll.offset
              then { v1 with scroll := v1.scroll.setOffset v1.selected } else v1
    if v2.selected ≥ (items.length : Int)
    then { v2 with selected := (items.length : Int) - 1 } else v2
  else v

/-- `moveDown` (`maxRows = height - 5`). -/
def moveDown (v : RefsView) : RefsView :=
  let items := v.getCurrentItems
  if v.selected < (items.length : Int) - 1 then
    let v1 := { v with selected := v.selected + 1 }
    let maxRows := v1.height - 5
    if v1.selected ≥ v1.scroll.offset + maxRows then
      { v1 with scroll := v1.scroll.setOffset (v1.selected - maxRows + 1) }
    else v1
  else v

/-- `moveTop`. -/
def moveTop (v : RefsView) : RefsView :=
  { v with selected := 0, scroll := v.scroll.setOffset 0 }

/-- `adjustScroll`. -/
def adjustScroll (v : RefsView) : RefsView :=
  let items := v.getCurrentItems
  let maxRows := v.height - 5
  let v1 :=
    if v.selected < v.scroll.offset then
      { v with scroll := v.scroll.setOffset v.selected }
    else if v.selected ≥ v.scroll.offset + maxRows then
      { v with scroll := v.scroll.setOffset (v.selected - maxRows + 1) }
    else v
  let v2 := if v1.scroll.offset < 0 then { v1 with scroll := v1.scroll.setOffset 0 } else v1
  if items.length > 0 ∧ v2.selected ≥ (items.length : Int) then
    { v2 with selected := (items.length : Int) - 1 }
  else v2

/-- `moveBottom`. -/
def moveBottom (v : RefsView) : RefsView :=
  let items := v.getCurrentItems
  let s := (items.length : Int) - 1
  let v1 := { v with selected := if s < 0 then 0 else s }
  v1.adjustScroll

/-- `switchSection`. -/
def switchSection (v : RefsView) (sec : Int) : RefsView :=
  if 0 ≤ sec ∧ sec < (v.sections.length : Int) then
    { v with currentSection := sec, selected := 0, scroll := v.scroll.setOffset 0 }
  else v

/-- `nextSection` (`Int.tmod` is Go's `%`; `none` models the Go panic of
`% 0` on an empty section list). -/
def nextSection (v : RefsView) : Option RefsView :=
  if v.sections.length = 0 then none
  else some { v with currentSection := (v.currentSection + 1).tmod (v.sections.length : Int)
                     selected := 0, scroll := v.scroll.setOffset 0 }

/-- `pageUp` (`maxRows = height - 5`). -/
def pageUp (v : RefsView) : RefsView :=
  let items := v.getCurrentItems
  let maxRows := v.height - 5
  let v1 := { v with selected := if v.selected ≥ maxRows then v.selected - maxRows else 0 }
  let v2 := if v1.selected < v1.scroll.offset
            then { v1 with scroll := v1.scroll.setOffset v1.selected } else v1
  if items.length > 0 ∧ v2.selected ≥ (items.length : Int) then
    { v2 with selected := (items.length : Int) - 1 }
  else v2

/-- `pageDown`. -/
def pageDown (v : RefsView) : RefsView :=
  let items := v.getCurrentItems
  let maxRows := v.height - 5
  let v1 := { v with selected :=
      if v.selected + maxRows < (items.length : Int) then v.selected + maxRows
      else (items.length : Int) - 1 }
  v1.adjustScroll

/-- `HandleKey`: no focus check — a blurred RefsView still processes
keys; `none` models the Go panic of `nextSection` on an empty section
list. -/
def handleKey (v : RefsView) (c : GitClient) (key : Key) (ch : Char) (mods : Nat) :
    Option (RefsView × Bool) :=
  if key == .kUp || ch == 'k' then some (v.moveUp, true)
  else if key == .kDown || ch == 'j' then some (v.moveDown, true)
  else if key == .kHome || ch == 'g' then some (v.moveTop, true)
  else if key == .kEnd || ch == 'G' then some (v.moveBottom, true)
  else if key == .kPgUp then some (v.pageUp, true)
  else if key == .kPgDn then some (v.pageDown, true)
  else if ch == '1' || ch == 'b' then some (v.switchSection 0, true)
  else if ch == '2' || ch == 't' then some (v.switchSection 1, true)
  else if ch == '3' || ch == 'r' then some (v.switchSection 2, true)
  else if key == .kTab then (v.nextSection).map (fun v1 => (v1, true))
  else if ch == 'R' then some ((v.load c).1, true)
  else if ch == 'q' then some (v, false)
  else some (v, false)

end RefsView

/-! ## HelpView (help_view.go) -/

/-- A help entry (`HelpItem`). -/
structure HelpItem where
  key : String
  description : String
  category : String
  deriving DecidableEq, Repr

/-- A help section (`HelpSection`). -/
structure HelpSection where
  title : String
  items : List HelpItem
  deriving DecidableEq, Repr

/-- The static help content built by `HelpView.Load`. -/
def helpSectionsData : List HelpSection :=
  [ { title := "Navigation", items :=
        [ { key := "j, ↓", description := "Move selection down", category := "navigation" }
        , { key := "k, ↑", description := "Move selection up", category := "navigation" }
        , { key := "g", description := "Go to top", category := "navigation" }
        , { key := "G", description := "Go to bottom", category := "navigation" }
        , { key := "PgUp", description := "Page up", category := "navigation" }
        , { key := "PgDn", description := "Page down", category := "navigation" } ] }
  , { title := "Views", items :=
        [ { key := "l", description := "Log view (main)", category := "view" }
        , { key := "d", description := "Diff view", category := "view" }
        , { key := "s", description := "Status view", category := "view" }
        , { key := "t", description := "Tree view", category := "view" }
        , { key := "r", description := "Refs view", category := "view" }
        , { key := "h", description := "Help view", category := "view" } ] }
  , { title := "Actions", items :=
        [ { key := "Enter", description := "Select/open item", category := "action" }
        , { key := "R", description := "Refresh current view", category := "action" }
        , { key := "q", description := "Quit application", category := "action" }
        , { key := "Ctrl+C", description := "Quit application", category := "action" } ] }
  , { title := "Tree View", items :=
        [ { key := "Enter", description := "Enter directory", category := "tree" }
        , { key := "h, ←", description := "Go up one directory", category := "tree" }
        , { key := "l, →", description := "Enter directory", category := "tree" } ] }
  , { title := "Refs View", items :=
        [ { key := "Tab", description := "Cycle through sections", category := "refs" }
        , { key := "1, b", description := "Switch to branches", category := "refs" }
        , { key := "2, t", description := "Switch to tags", category := "refs" }
        , { key := "3, r", description := "Switch to remotes", category := "refs" } ] }
  , { title := "General", items :=
        [ { key := "Ctrl+L", description := "Redraw screen", category := "general" }
        , { key := "?", description := "Show this help", category := "general" } ] } ]

/-- The static help view (`HelpView`). -/
structure HelpView where
  x : Int
  y : Int
  width : Int
  height : Int
  focused : Bool
  scroll : Scrollable
  sections : List HelpSection
  currentSection : Int
  selected : Int
  repoPath : String
  deriving DecidableEq, Repr

/-- `NewHelpView` (sections are populated by the first `Load`). -/
def newHelpView : HelpView :=
  { x := 0, y := 0, width := 0, height := 0, focused := false
    scroll := newScrollable, sections := [], currentSection := 0
    selected := 0, repoPath := "" }

namespace HelpView

/-- `Load`: install the static help sections. -/
def load (v : HelpView) : HelpView × Option String :=
  ({ v with sections := helpSectionsData }, none)

/-- `Refresh` = `Load`. -/
def refresh (v : HelpView) : HelpView × Option String := v.load

/-- `getCurrentItems`. -/
def getCurrentItems (v : HelpView) : List HelpItem :=
  if 0 ≤ v.currentSection ∧ v.currentSection < (v.sections.length : Int) then
    (v.sections.getD v.currentSection.toNat { title := "", items := [] }).items
  else []

/-- `moveUp`. -/
def moveUp (v : HelpView) : HelpView :=
  if v.selected > 0 then
    let v1 := { v with selected := v.selected - 1 }
    if v1.selected < v1.scroll.offset then { v1 with scroll := v1.scroll.setOffset v1.selected }
    else v1
  else v

/-- `moveDown` (`maxRows = height - 6`). -/
def moveDown (v : HelpView) : HelpView :=
  let items := v.getCurrentItems
  if v.selected < (items.length : Int) - 1 then
    let v1 := { v with selected := v.selected + 1 }
    let maxRows := v1.height - 6
    if v1.selected ≥ v1.scroll.offset + maxRows then
      { v1 with scroll := v1.scroll.setOffset (v1.selected - maxRows + 1) }
    else v1
  else v

/-- `moveTop`. -/
def moveTop (v : HelpView) : HelpView :=
  { v with selected := 0, scroll := v.scroll.setOffset 0 }

/-- `adjustScroll` (`maxRows = height - 6`). -/
def adjustScroll (v : HelpView) : HelpView :=
  let items := v.getCurrentItems
  let maxRows := v.height - 6
  let v1 :=
    if v.selected < v.scroll.offset then
      { v with scroll := v.scroll.setOffset v.selected }
    else if v.selected ≥ v.scroll.offset + maxRows then
      { v with scroll := v.scroll.setOffset (v.selected - maxRows + 1) }
    else v
  let v2 := if v1.scroll.offset < 0 then { v1 with scroll := v1.scroll.setOffset 0 } else v1
  if v2.scroll.offset > (items.length : Int) - maxRows ∧ (items.length : Int) > maxRows then
    { v2 with scroll := v2.scroll.setOffset ((items.length : Int) - maxRows) }
  else v2

/-- `moveBottom`. -/
def moveBottom (v : HelpView) : HelpView :=
  let items := v.getCurrentItems
  let s := (items.length : Int) - 1
  let v1 := { v with selected := if s < 0 then 0 else s }
  v1.adjustScroll

/-- `switchSection`. -/
def switchSection (v : HelpView) (sec : Int) : HelpView :=
  if 0 ≤ sec ∧ sec < (v.sections.length : Int) then
    { v with currentSection := sec, selected := 0, scroll := v.scroll.setOffset 0 }
  else v

/-- `nextSection` (`none` models the Go panic of `% 0` on an empty
section list, the state of a help view before its first `Load`). -/
def nextSection (v : HelpView) : Option HelpView :=
  if v.sections.length = 0 then none
  else some { v with currentSection := (v.currentSection + 1).tmod (v.sections.length : Int)
                     selected := 0, scroll := v.scroll.setOffset 0 }

/-- `pageUp` (`pageSize = height - 6`). -/
def pageUp (v : HelpView) : HelpView :=
  let pageSize := v.height - 6
  let v1 := { v with selected := if v.selected ≥ pageSize then v.selected - pageSize else 0 }
  if v1.selected < v1.scroll.offset then
    { v1 with scroll := v1.scroll.setOffset v1.selected }
  else v1

/-- `pageDown`. -/
def pageDown (v : HelpView) : HelpView :=
  let items := v.getCurrentItems
  let pageSize := v.height - 6
  let v1 := { v with selected :=
      if v.selected + pageSize < (items.length : Int) then v.selected + pageSize
      else (items.length : Int) - 1 }
  v1.adjustScroll

/-- `HandleKey`: no focus check — a blurred HelpView still processes
keys; `none` models the Go panic of `nextSection` before the first
`Load`. -/
def handleKey (v : HelpView) (key : Key) (ch : Char) (mods : Nat) :
    Option (HelpView × Bool) :=
  if key == .kUp || ch == 'k' then some (v.moveUp, true)
  else if key == .kDown || ch == 'j' then some (v.moveDown, true)
  else if key == .kHome || ch == 'g' then some (v.moveTop, true)
  else if key == .kEnd || ch == 'G' then some (v.moveBottom, true)
  else if key == .kPgUp then some (v.pageUp, true)
  else if key == .kPgDn then some (v.pageDown, true)
  else if key == .kTab then (v.nextSection).map (fun v1 => (v1, true))
  else if ch == '1' then some (v.switchSection 0, true)
  else if ch == '2' then some (v.switchSection 1, true)
  else if ch == '3' then some (v.switchSection 2, true)
  else if ch == '4' then some (v.switchSection 3, true)
  else if ch == '5' then some (v.switchSection 4, true)
  else if ch == '6' then some (v.switchSection 5, true)
  else if ch == 'q' || key == .kEsc then some (v, false)
  else some (v, false)

end HelpView

/-! ## KeyBindingManager (keybindings.go) -/

/-- A key binding (`KeyBinding`); `mods` is the tcell modifier bitmask
(Shift 1, Alt 2, Meta 4, Ctrl 8). -/
structure KeyBinding where
  action : String
  key : Key
  rune : Char
  mods : Nat
  help : String
  deriving DecidableEq, Repr

/-- The built-in binding table of `loadDefaultBindings`.  The Go map is
keyed by action name and iterated in unspecified order; the model keeps
the source's insertion order. -/
def defaultBindings : List (String × KeyBinding) :=
  [ ("quit", { action := "quit", key := .kRune, rune := 'q', mods := 0
               help := "Quit the application" })
  , ("refresh", { action := "refresh", key := .kRune, rune := 'R', mods := 0
                  help := "Refresh all views" })
  , ("help", { action := "help", key := .kRune, rune := 'h', mods := 0
               help := "Show help" })
  , ("status", { action := "status", key := .kRune, rune := 's', mods := 0
                 help := "Show status view" })
  , ("diff", { action := "diff", key := .kRune, rune := 'd', mods := 0
               help := "Show diff view" })
  , ("log", { action := "log", key := .kRune, rune := 'l', mods := 0
              help := "Show log view" })
  , ("tree", { action := "tree", key := .kRune, rune := 't', mods := 0
               help := "Show tree view" })
  , ("refs", { action := "refs", key := .kRune, rune := 'r', mods := 0
               help := "Show refs view" })
  , ("up", { action := "up", key := .kUp, rune := rune0, mods := 0
             help := "Move selection up" })
  , ("down", { action := "down", key := .kDown, rune := rune0, mods := 0
               help := "Move selection down" })
  , ("page-up", { action := "page-up", key := .kPgUp, rune := rune0, mods := 0
                  help := "Move selection up one page" })
  , ("page-down", { action := "page-down", key := .kPgDn, rune := rune0, mods := 0
                    help := "Move selection down one page" })
  , ("top", { action := "top", key := .kRune, rune := 'g', mods := 0
              help := "Move to top" })
  , ("bottom", { action := "bottom", key := .kRune, rune := 'G', mods := 0
                 help := "Move to bottom" })
  , ("stage", { action := "stage", key := .kRune, rune := 'a', mods := 0
                help := "Stage/unstage selected file" })
  , ("unstage", { action := "unstage", key := .kRune, rune := 'u', mods := 0
                  help := "Unstage selected file" })
  , ("stage-all", { action := "stage-all", key := .kRune, rune := 'A', mods := 0
                    help := "Stage all files" })
  , ("unstage-all", { action := "unstage-all", key := .kRune, rune := 'U', mods := 0
                      help := "Unstage all files" })
  , ("discard", { action := "discard", key := .kRune, rune := 'd', mods := 0
                  help := "Discard changes to selected file" })
  , ("commit", { action := "commit", key := .kRune, rune := 'c', mods := 0
                 help := "Commit staged changes" }) ]

/-- `parseBinding`: parse a user binding string into key, rune and
modifier mask. -/
def parseBinding (binding : String) : Key × Char × Nat :=
  let b := binding.toLower
  let mods : Nat := 0
  let (mods, b) := if "ctrl-".isPrefixOf b then (mods ||| 8, trimStart b "ctrl-") else (mods, b)
  let (mods, b) := if "alt-".isPrefixOf b then (mods ||| 2, trimStart b "alt-") else (mods, b)
  let (mods, b) := if "shift-".isPrefixOf b then (mods ||| 1, trimStart b "shift-") else (mods, b)
  if b == "up" then (.kUp, rune0, mods)
  else if b == "down" then (.kDown, rune0, mods)
  else if b == "left" then (.kLeft, rune0, mods)
  else if b == "right" then (.kRight, rune0, mods)
  else if b == "pgup" || b == "pageup" then (.kPgUp, rune0, mods)
  else if b == "pgdn" || b == "pagedown" then (.kPgDn, rune0, mods)
  else if b == "home" then (.kHome, rune0, mods)
  else if b == "end" then (.kEnd, rune0, mods)
  else if b == "enter" then (.kEnter, rune0, mods)
  else if b == "esc" || b == "escape" then (.kEsc, rune0, mods)
  else if b == "tab" then (.kTab, rune0, mods)
  else if b == "backspace" then (.kBackspace, rune0, mods)
  else if b == "del" || b == "delete" then (.kDelete, rune0, mods)
  else if b == "space" then (.kRune, ' ', mods)
  else if b.length = 1 then (.kRune, b.front, mods)
  else (.kRune, rune0, mods)

/-- One step of `loadCustomBindings`: overwrite the key of an existing
action (unknown actions are ignored, empty strings skipped). -/
def applyCustomBinding (bs : List (String × KeyBinding)) (action bstr : String) :
    List (String × KeyBinding) :=
  if bstr == "" then bs
  else
    let parsed := parseBinding bstr
    bs.map fun p =>
      if p.1 == action then
        (p.1, { p.2 with key := parsed.1, rune := parsed.2.1, mods := parsed.2.2 })
      else p

/-- `loadCustomBindings` over the configured overlay pairs. -/
def loadCustomBindings (cfg : List (String × String)) (bs : List (String × KeyBinding)) :
    List (String × KeyBinding) :=
  cfg.foldl (fun acc p => applyCustomBinding acc p.1 p.2) bs

/-- The startup configuration consumed by the key-binding manager
(`config.Config.Keymaps.Bindings`; the display toggles only affect
drawing and are not part of any embedded operation). -/
structure Config where
  keymaps : List (String × String)
  deriving DecidableEq, Repr

/-- The key-binding manager (`KeyBindingManager`): the binding table
after defaults and overlay. -/
structure KeyBindingManager where
  bindings : List (String × KeyBinding)
  deriving DecidableEq, Repr

/-- `NewKeyBindingManager`: load defaults, then the configured overlay. -/
def newKeyBindingManager (cfg : Config) : KeyBindingManager :=
  { bindings := loadCustomBindings cfg.keymaps defaultBindings }

/-- `matches`: exact match on key code, rune (for rune keys) and modifier
mask. -/
def kbMatches (b : KeyBinding) (key : Key) (ch : Char) (mods : Nat) : Bool :=
  if b.key != key then false
  else if key == .kRune && b.rune != ch then false
  else b.mods == mods

namespace KeyBindingManager

/-- `MatchEvent`: the first matching binding in iteration order (the
model iterates in insertion order; the Go map order is unspecified). -/
def matchEvent (k : KeyBindingManager) (key : Key) (ch : Char) (mods : Nat) : Option String :=
  (k.bindings.find? (fun p => kbMatches p.2 key ch mods)).map (fun p => p.1)

end KeyBindingManager

/-- Tuple equality of two bindings: same key code, rune and modifier
mask. -/
def tupleEq (a b : KeyBinding) : Bool :=
  a.key == b.key && a.rune == b.rune && a.mods == b.mods

/-- The ordered pairs of distinct actions in a binding table whose
(key, rune, modifiers) tuples coincide — the collisions the spec's
load-time validation is supposed to exclude. -/
def collidingPairs (bs : List (String × KeyBinding)) : List (String × String) :=
  match bs with
  | [] => []
  | p :: rest =>
    (rest.filterMap fun q =>
      if p.1 ≠ q.1 ∧ tupleEq p.2 q.2 then some (p.1, q.1) else none)
      ++ collidingPairs rest

/-! ## ViewManager (view_manager.go) -/

/-- The view manager (`ViewManager`): the six registered views (the Go
`map[ViewType]View` always holds exactly the six types 0–5 created by
`initializeViews`), the current view type, screen dimensions and the
key-binding manager. -/
structure ViewManager where
  mainView : MainView
  diffView : DiffView
  statusView : StatusView
  treeView : TreeView
  refsView : RefsView
  helpView : HelpView
  currentView : Int
  width : Int
  height : Int
  kbm : KeyBindingManager
  deriving DecidableEq, Repr

namespace ViewManager

/-- Registration check: the view map holds exactly the types 0–5. -/
def registered (vm : ViewManager) (t : Int) : Bool :=
  decide (0 ≤ t) && decide (t < 6)

/-- `View.Focus` on the view registered at `t` (no-op when `t` is
unregistered, like the `exists` guard of `setFocus`). -/
def focusAt (vm : ViewManager) (t : Int) : ViewManager :=
  if t = 0 then { vm with mainView := { vm.mainView with focused := true } }
  else if t = 1 then { vm with diffView := { vm.diffView with focused := true } }
  else if t = 2 then { vm with statusView := { vm.statusView with focused := true } }
  else if t = 3 then { vm with treeView := { vm.treeView with focused := true } }
  else if t = 4 then { vm with refsView := { vm.refsView with focused := true } }
  else if t = 5 then { vm with helpView := { vm.helpView with focused := true } }
  else vm

/-- `View.Blur` on the view registered at `t` (no-op when `t` is
unregistered, like the `exists` guard in `SwitchView`). -/
def blurAt (vm : ViewManager) (t : Int) : ViewManager :=
  if t = 0 then { vm with mainView := { vm.mainView with focused := false } }
  else if t = 1 then { vm with diffView := { vm.diffView with focused := false } }
  else if t = 2 then { vm with statusView := { vm.statusView with focused := false } }
  else if t = 3 then { vm with treeView := { vm.treeView with focused := false } }
  else if t = 4 then { vm with refsView := { vm.refsView with focused := false } }
  else if t = 5 then { vm with helpView := { vm.helpView with focused := false } }
  else vm

/-- `IsFocused` of the view registered at `t` (false for unregistered
types). -/
def isFocusedAt (vm : ViewManager) (t : Int) : Bool :=
  if t = 0 then vm.mainView.focused
  else if t = 1 then vm.diffView.focused
  else if t = 2 then vm.statusView.focused
  else if t = 3 then vm.treeView.focused
  else if t = 4 then vm.refsView.focused
  else if t = 5 then vm.helpView.focused
  else false

/-- How many of the six registered views report `IsFocused() == true`. -/
def focusCount (vm : ViewManager) : Nat :=
  (if vm.mainView.focused then 1 else 0) + (if vm.diffView.focused then 1 else 0)
    + (if vm.statusView.focused then 1 else 0) + (if vm.treeView.focused then 1 else 0)
    + (if vm.refsView.focused then 1 else 0) + (if vm.helpView.focused then 1 else 0)

/-- `SwitchView`: error (focus untouched) for an unregistered type;
otherwise blur the current view, move the pointer, focus the new one. -/
def switchView (vm : ViewManager) (t : Int) : ViewManager × Option String :=
  if !(vm.registered t) then
    (vm, some ("view type " ++ toString t ++ " not found"))
  else
    let vm1 := vm.blurAt vm.currentView
    let vm2 := { vm1 with currentView := t }
    (vm2.focusAt t, none)

/-- `refreshAll`: refresh every registered view, keeping the last error
(the model iterates in view-type order 0–5; the Go map order is
unspecified). -/
def refreshAllViews (vm : ViewManager) (c : GitClient) : ViewManager × Option String :=
  let m := vm.mainView.refresh c
  let d := vm.diffView.refresh c
  let s := vm.statusView.refresh c
  let t := vm.treeView.refresh c
  let r := vm.refsView.refresh c
  let h := vm.helpView.refresh
  let pick := fun (acc e : Option String) => match e with | some msg => some msg | none => acc
  let lastErr := pick (pick (pick (pick (pick (pick none m.2) d.2) s.2) t.2) r.2) h.2
  ({ vm with mainView := m.1, diffView := d.1, statusView := s.1
             treeView := t.1, refsView := r.1, helpView := h.1 }, lastErr)

/-- `RefreshCurrent`: refresh the focused view only. -/
def refreshCurrent (vm : ViewManager) (c : GitClient) : ViewManager × Option String :=
  if vm.currentView = 0 then
    let r := vm.mainView.refresh c; ({ vm with mainView := r.1 }, r.2)
  else if vm.currentView = 1 then
    let r := vm.diffView.refresh c; ({ vm with diffView := r.1 }, r.2)
  else if vm.currentView = 2 then
    let r := vm.statusView.refresh c; ({ vm with statusView := r.1 }, r.2)
  else if vm.currentView = 3 then
    let r := vm.treeView.refresh c; ({ vm with treeView := r.1 }, r.2)
  else if vm.currentView = 4 then
    let r := vm.refsView.refresh c; ({ vm with refsView := r.1 }, r.2)
  else if vm.currentView = 5 then
    let r := vm.helpView.refresh; ({ vm with helpView := r.1 }, r.2)
  else (vm, some ("current view " ++ toString vm.currentView ++ " not found"))

end ViewManager

/-- Outcome of `ViewManager.HandleKey`: a returned (manager, handled)
pair, a Go runtime panic inside a view handler, or the self-deadlock on
`vm.mutex` — `HandleKey` holds `mutex.RLock()` (view_manager.go:166)
while the refresh and view-switch cases call `RefreshAll`/`SwitchView`,
which take `mutex.Lock()` (lines 252 and 117) on the same non-reentrant
RWMutex, so those calls block forever and never return. -/
inductive KeyOutcome where
  | done (vm : ViewManager) (handled : Bool)
  | panicked
  | deadlocked
  deriving DecidableEq, Repr

namespace ViewManager

/-- Delegation of a key event to the current view (`vm.views[vm.currentView]`
lookup plus `View.HandleKey`, which takes no lock); `(vm, false)` when
the current type is unregistered; `panicked` models a Go panic inside
the view handler. -/
def delegateKey (vm : ViewManager) (c : GitClient) (key : Key) (ch : Char) (mods : Nat) :
    KeyOutcome :=
  if vm.currentView = 0 then
    let r := vm.mainView.handleKey key ch mods
    .done { vm with mainView := r.1 } r.2
  else if vm.currentView = 1 then
    let r := vm.diffView.handleKey key ch mods
    .done { vm with diffView := r.1 } r.2
  else if vm.currentView = 2 then
    match vm.statusView.handleKey c key ch mods with
    | none => .panicked
    | some r => .done { vm with statusView := r.1 } r.2
  else if vm.currentView = 3 then
    let r := vm.treeView.handleKey c key ch mods
    .done { vm with treeView := r.1 } r.2
  else if vm.currentView = 4 then
    match vm.refsView.handleKey c key ch mods with
    | none => .panicked
    | some r => .done { vm with refsView := r.1 } r.2
  else if vm.currentView = 5 then
    match vm.helpView.handleKey key ch mods with
    | none => .panicked
    | some r => .done { vm with helpView := r.1 } r.2
  else .done vm false

/-- `HandleKey`: consult the key-binding manager first.  Quit returns
false directly (no further locking).  The refresh and view-switch cases
call `RefreshAll`/`SwitchView` while still holding `mutex.RLock()`;
both take `mutex.Lock()` on the same RWMutex, so these cases
self-deadlock (`deadlocked`) instead of returning.  The navigation
actions are delegated to the current view as the corresponding
navigation key; everything else (unmatched events and actions without a
case) is delegated unchanged. -/
def handleKey (vm : ViewManager) (c : GitClient) (key : Key) (ch : Char) (mods : Nat) :
    KeyOutcome :=
  let nav := fun (k : Key) =>
    if vm.registered vm.currentView then vm.delegateKey c k rune0 0
    else vm.delegateKey c key ch mods
  match vm.kbm.matchEvent key ch mods with
  | some action =>
    if action == "quit" then .done vm false
    else if action == "refresh" then .deadlocked
    else if action == "status" then .deadlocked
    else if action == "diff" then .deadlocked
    else if action == "log" then .deadlocked
    else if action == "tree" then .deadlocked
    else if action == "refs" then .deadlocked
    else if action == "help" then .deadlocked
    else if action == "up" then nav .kUp
    else if action == "down" then nav .kDown
    else if action == "page-up" then nav .kPgUp
    else if action == "page-down" then nav .kPgDn
    else if action == "top" then nav .kHome
    else if action == "bottom" then nav .kEnd
    else vm.delegateKey c key ch mods
  | none => vm.delegateKey c key ch mods

end ViewManager

/-- `NewViewManager` + `initializeViews`: create the six views, start on
`ViewTypeMain` and focus it. -/
def newViewManager (kbm : KeyBindingManager) : ViewManager :=
  let vm : ViewManager :=
    { mainView := newMainView, diffView := newDiffView, statusView := newStatusView
      treeView := newTreeView, refsView := newRefsView, helpView := newHelpView
      currentView := 0, width := 0, height := 0, kbm := kbm }
  vm.focusAt vm.currentView

/-- Apply a sequence of `SwitchView` calls, left to right. -/
def applySwitches (vm : ViewManager) (ts : List Int) : ViewManager :=
  ts.foldl (fun acc t => (acc.switchView t).1) vm

/-! ## Invariants under verification -/

/-- The spec's selection-bound invariant for the commit-log view. -/
def selBound (v : MainView) : Prop :=
  0 ≤ v.selected ∧ v.selected < (v.commits.length : Int)

/-- The selection-bound invariant including the empty-list case. -/
def selBoundOrEmpty (v : MainView) : Prop :=
  selBound v ∨ (v.commits = [] ∧ v.selected = 0)

instance (v : MainView) : Decidable (selBound v) := by
  unfold selBound; infer_instance

instance (v : MainView) : Decidable (selBoundOrEmpty v) := by
  unfold selBoundOrEmpty; infer_instance

/-- What each navigation key actually does on an empty commit list: all
are handled; Up/Down/PageUp/Home/'j'/'k'/'g' keep the selection at 0,
while End/PageDown/'G' drive it to -1. -/
def emptyListNavBehavior (v : MainView) : Prop :=
  ((v.handleKey .kUp rune0 0).1.selected = 0 ∧ (v.handleKey .kUp rune0 0).2 = true)
  ∧ ((v.handleKey .kDown rune0 0).1.selected = 0 ∧ (v.handleKey .kDown rune0 0).2 = true)
  ∧ ((v.handleKey .kPgUp rune0 0).1.selected = 0 ∧ (v.handleKey .kPgUp rune0 0).2 = true)
  ∧ ((v.handleKey .kHome rune0 0).1.selected = 0 ∧ (v.handleKey .kHome rune0 0).2 = true)
  ∧ ((v.handleKey .kRune 'j' 0).1.selected = 0 ∧ (v.handleKey .kRune 'j' 0).2 = true)
  ∧ ((v.handleKey .kRune 'k' 0).1.selected = 0 ∧ (v.handleKey .kRune 'k' 0).2 = true)
  ∧ ((v.handleKey .kRune 'g' 0).1.selected = 0 ∧ (v.handleKey .kRune 'g' 0).2 = true)
  ∧ ((v.handleKey .kEnd rune0 0).1.selected = -1 ∧ (v.handleKey .kEnd rune0 0).2 = true)
  ∧ ((v.handleKey .kPgDn rune0 0).1.selected = -1 ∧ (v.handleKey .kPgDn rune0 0).2 = true)
  ∧ ((v.handleKey .kRune 'G' 0).1.selected = -1 ∧ (v.handleKey .kRune 'G' 0).2 = true)

/-- Focus pattern: the view registered at `t` is the focused one. -/
def vmFocusPattern (vm : ViewManager) (t : Int) : Prop :=
  vm.currentView = t
    ∧ vm.mainView.focused = (t == 0) ∧ vm.diffView.focused = (t == 1)
    ∧ vm.statusView.focused = (t == 2) ∧ vm.treeView.focused = (t == 3)
    ∧ vm.refsView.focused = (t == 4) ∧ vm.helpView.focused = (t == 5)

/-- Focus invariant: some registered view type carries the focus pattern. -/
def vmFocusInv (vm : ViewManager) : Prop :=
  ∃ t, 0 ≤ t ∧ t < 6 ∧ vmFocusPattern vm t

/-! ## Concrete fixtures for witnesses and counterexamples -/

/-- A commit with a numbered hash. -/
def sampleCommit (n : Nat) : Commit :=
  { hash := toString n, author := { name := "a", email := "a@b" }
    message := "m", summary := "s", parents := [] }

/-- Five commits. -/
def fiveCommits : List Commit := (List.range 5).map sampleCommit

/-- The 5-item, page-size-3 main view of the spec's scenario: the state
after a render at position height 5 (scroll height 3, maxOffset
`max 0 (5 - 3) = 2`). -/
def scenarioMain : MainView :=
  { newMainView with focused := true, commits := fiveCommits, height := 5
                     scroll := { offset := 0, maxOffset := 2, height := 3 } }

/-- Press a sequence of keys (zero rune, no modifiers) on a main view. -/
def pressKeys (v : MainView) (ks : List Key) : MainView :=
  ks.foldl (fun a k => (a.handleKey k rune0 0).1) v

/-- A focused main view over an empty commit list. -/
def emptyMain : MainView := { newMainView with focused := true, height := 24 }

/-- Five plain files. -/
def fiveFiles : List GFile :=
  (List.range 5).map (fun n => { path := toString n, isDir := false, isBinary := false })

/-- The 5-item tree view analogous to the spec's scenario: position
height 6, so `maxRows = height - 3 = 3` visible rows.  Its `Scrollable`
is the fresh one `NewTreeView` creates — no `SetMaxOffset` is ever
called on it. -/
def scenarioTree : TreeView :=
  { newTreeView with focused := true, files := fiveFiles, height := 6 }

/-- Press a sequence of keys (zero rune, no modifiers) on a tree view. -/
def pressTreeKeys (v : TreeView) (c : GitClient) (ks : List Key) : TreeView :=
  ks.foldl (fun a k => (a.handleKey c k rune0 0).1) v

/-- A tree view over an empty file list. -/
def emptyTree : TreeView := { newTreeView with focused := true, height := 24 }

/-- A refs view with no refs loaded. -/
def emptyRefs : RefsView := { newRefsView with focused := true, height := 24 }

/-- A help view before its first `Load` (no sections). -/
def emptyHelp : HelpView := { newHelpView with focused := true, height := 24 }

/-- A focused status view whose status pointer is still nil. -/
def statusNilFocused : StatusView := { newStatusView with focused := true, height := 24 }

/-- A clean working-tree status (`buildStatusLines` yields 11 lines). -/
def cleanStatus : GitStatus :=
  { branch := "", ahead := 0, behind := 0
    staged := [], modified := [], untracked := [], conflict := [] }

/-- A status view that has loaded the clean status. -/
def sampleStatusView : StatusView := { newStatusView with status := some cleanStatus }

/-- A backend oracle with no repository at all (every query fails). -/
def offlineClient : GitClient :=
  { isRepository := false, getRepository := .error "no repo"
    getStatus := .error "no repo", getCommits := .error "no repo"
    getCommitDiff := fun _ => .error "no repo", getFiles := fun _ => .error "no repo"
    getBranches := .error "no repo", getTags := .error "no repo"
    getRemotes := .error "no repo", getHead := .error "no repo"
    stageFile := fun _ => some "no repo", unstageFile := fun _ => some "no repo"
    stageAll := some "no repo", unstageAll := some "no repo"
    discardChanges := fun _ => some "no repo" }

/-- A repository whose handle cannot be obtained. -/
def repoErrClient : GitClient := { offlineClient with isRepository := true }

/-- A repository whose status/commit queries fail. -/
def queryErrClient : GitClient :=
  { repoErrClient with getRepository := .ok ()
                       getStatus := .error "boom", getCommits := .error "boom" }

/-- A healthy repository oracle. -/
def okClient : GitClient :=
  { isRepository := true, getRepository := .ok ()
    getStatus := .ok cleanStatus, getCommits := .ok fiveCommits
    getCommitDiff := fun _ => .ok "", getFiles := fun _ => .ok []
    getBranches := .ok [], getTags := .ok [], getRemotes := .ok []
    getHead := .ok { name := "refs/heads/main", rtype := 0, hash := "", target := "" }
    stageFile := fun _ => none, unstageFile := fun _ => none
    stageAll := none, unstageAll := none, discardChanges := fun _ => none }

/-- The binding table with no user overlay. -/
def defaultKbm : KeyBindingManager := newKeyBindingManager { keymaps := [] }

/-- The view manager right after initialization. -/
def initialVM : ViewManager := newViewManager defaultKbm

/-! # Helper lemmas -/

theorem scrollInv_apply (s : Scrollable) (op : ScrollOp)
    (h : scrollInv s) (hm : ∀ m, op = ScrollOp.setMax m → 0 ≤ m) :
    scrollInv (ScrollOp.apply s op) := by
  unfold scrollInv at h ⊢
  obtain ⟨h1, h2, h3⟩ := h
  cases op with
  | up =>
    simp only [ScrollOp.apply, Scrollable.scrollUp]
    split_ifs <;> refine ⟨?_, ?_, ?_⟩ <;> dsimp only <;> omega
  | down =>
    simp only [ScrollOp.apply, Scrollable.scrollDown]
    split_ifs <;> refine ⟨?_, ?_, ?_⟩ <;> dsimp only <;> omega
  | pageUp =>
    simp only [ScrollOp.apply, Scrollable.scrollPageUp]
    split_ifs <;> refine ⟨?_, ?_, ?_⟩ <;> dsimp only <;> omega
  | pageDown =>
    simp only [ScrollOp.apply, Scrollable.scrollPageDown]
    split_ifs <;> refine ⟨?_, ?_, ?_⟩ <;> dsimp only <;> omega
  | toTop =>
    simp only [ScrollOp.apply, Scrollable.scrollToTop]
    refine ⟨?_, ?_, ?_⟩ <;> dsimp only <;> omega
  | toBottom =>
    simp only [ScrollOp.apply, Scrollable.scrollToBottom]
    refine ⟨?_, ?_, ?_⟩ <;> dsimp only <;> omega
  | setMax m =>
    have hm0 : 0 ≤ m := hm m rfl
    simp only [ScrollOp.apply, Scrollable.setMaxOffset]
    split_ifs <;> refine ⟨?_, ?_, ?_⟩ <;> dsimp only <;> omega

theorem scrollInv_applyScrollOps (s : Scrollable) (ops : List ScrollOp)
    (h : scrollInv s) (hm : ∀ m, ScrollOp.setMax m ∈ ops → 0 ≤ m) :
    scrollInv (applyScrollOps s ops) := by
  induction ops generalizing s with
  | nil => exact h
  | cons op rest ih =>
    have hstep := scrollInv_apply s op h (fun m hop => hm m (by simp [hop]))
    have := ih (ScrollOp.apply s op) hstep (fun m hmem => hm m (List.mem_cons_of_mem _ hmem))
    simpa [applyScrollOps] using this

/-! # Claim C1 -/

/-- C1 (amended): starting from `NewScrollable`, the invariant
`0 ≤ offset ≤ maxOffset` is preserved by every sequence of
ScrollUp/ScrollDown/PageUp/PageDown/ToTop/ToBottom/SetMaxOffset calls
**provided every `SetMaxOffset` argument is nonnegative**; `SetMaxOffset`
always stores the bound and clamps the offset down to it.  (The original
claim, for arbitrary integer arguments, is false: a negative bound makes
both fields negative — see the counterexample.) -/
theorem C1_offset_bound_invariant :
    scrollInv newScrollable
      ∧ (∀ (s : Scrollable) (m : Int),
          (s.setMaxOffset m).maxOffset = m ∧ (s.setMaxOffset m).offset ≤ m)
      ∧ (∀ (s : Scrollable) (ops : List ScrollOp), scrollInv s →
          (∀ m, ScrollOp.setMax m ∈ ops → 0 ≤ m) → scrollInv (applyScrollOps s ops)) := by
  refine ⟨by decide, fun s m => ?_, fun s ops h hm => scrollInv_applyScrollOps s ops h hm⟩
  unfold Scrollable.setMaxOffset
  constructor
  · dsimp only
    split_ifs <;> rfl
  · dsimp only
    split_ifs <;> dsimp only <;> omega

/-- C1 witness: a concrete run through the guarded invariant theorem. -/
theorem C1_offset_bound_invariant_witness :
    scrollInv (applyScrollOps newScrollable
      [ScrollOp.setMax 3, ScrollOp.down, ScrollOp.pageDown, ScrollOp.toBottom, ScrollOp.up]) :=
  C1_offset_bound_invariant.2.2 newScrollable _ (by decide)
    (by intro m hmem; simp at hmem; omega)

/-- C1 counterexample: `SetMaxOffset(-1)` on a fresh scrollable drives the
offset to `-1`, so `0 ≤ offset` fails after the call and `SetMaxOffset`
does not guarantee a nonnegative offset. -/
theorem C1_counterexample :
    (applyScrollOps newScrollable [ScrollOp.setMax (-1)]).offset = -1
      ∧ ¬ scrollInv (applyScrollOps newScrollable [ScrollOp.setMax (-1)]) := by
  constructor
  · rfl
  · decide

/-! # Claim C2 -/

theorem selBound_moveUp (v : MainView) (h : selBound v) : selBound v.moveUp := by
  obtain ⟨h1, h2⟩ := h
  unfold selBound MainView.moveUp
  dsimp only
  split_ifs <;> refine ⟨?_, ?_⟩ <;> dsimp only <;> omega

theorem selBound_moveDown (v : MainView) (h : selBound v) : selBound v.moveDown := by
  obtain ⟨h1, h2⟩ := h
  unfold selBound MainView.moveDown
  dsimp only
  split_ifs <;> refine ⟨?_, ?_⟩ <;> dsimp only <;> omega

theorem mainView_handleKey_selBound (v : MainView) (key : Key) (ch : Char) (mods : Nat)
    (hf : v.focused = true) (hh : 2 ≤ v.height) (hne : v.commits ≠ [])
    (hsb : selBound v) : selBound ((v.handleKey key ch mods).1) := by
  have hlen : 0 < v.commits.length := List.length_pos.mpr hne
  have hu := selBound_moveUp v hsb
  have hd := selBound_moveDown v hsb
  obtain ⟨h1, h2⟩ := hsb
  unfold MainView.handleKey MainView.getPageSize
  simp only [hf, Bool.not_true, Bool.false_eq_true, if_false]
  cases key <;>
    first
    | (exact hd)
    | (exact hu)
    | (refine ⟨?_, ?_⟩ <;> dsimp only <;> omega)
    | (dsimp only
       split_ifs <;>
         first
         | exact hd
         | exact hu
         | (refine ⟨?_, ?_⟩ <;> dsimp only <;> omega))

theorem mainView_refresh_cases (v : MainView) (c : GitClient) :
    (c.isRepository = false → selBoundOrEmpty ((v.refresh c).1))
    ∧ (∀ cs, c.isRepository = true → c.getRepository = .ok () →
        c.getCommits = .ok cs → selBoundOrEmpty ((v.refresh c).1))
    ∧ (∀ e, c.isRepository = true → c.getRepository = .error e → (v.refresh c).1 = v)
    ∧ (∀ e, c.isRepository = true → c.getRepository = .ok () →
        c.getCommits = .error e → (v.refresh c).1 = v) := by
  refine ⟨?_, ?_, ?_, ?_⟩
  · intro hrep
    unfold MainView.refresh
    simp only [hrep, Bool.not_false, if_true]
    exact Or.inr ⟨rfl, rfl⟩
  · intro cs hrep hr hc
    unfold MainView.refresh
    simp only [hrep, hr, hc, Bool.not_true, Bool.false_eq_true, if_false]
    (try dsimp only)
    rcases List.eq_nil_or_concat cs with hcs | ⟨_, _, hcs⟩
    · subst hcs
      refine Or.inr ⟨rfl, ?_⟩
      simp only [List.length_nil, Nat.cast_zero]
      split_ifs <;> omega
    · have hlen : 0 < cs.length := by subst hcs; simp
      refine Or.inl ⟨?_, ?_⟩ <;> (try dsimp only) <;> split_ifs <;> omega
  · intro e hrep hr
    unfold MainView.refresh
    simp [hrep, hr]
  · intro e hrep hr hc
    unfold MainView.refresh
    simp [hrep, hr, hc]

theorem mainView_empty_nav (v : MainView) (hf : v.focused = true)
    (hc : v.commits = []) (hs : v.selected = 0) (hh : 2 ≤ v.height) :
    emptyListNavBehavior v := by
  unfold emptyListNavBehavior
  refine ⟨⟨?_, ?_⟩, ⟨?_, ?_⟩, ⟨?_, ?_⟩, ⟨?_, ?_⟩, ⟨?_, ?_⟩, ⟨?_, ?_⟩, ⟨?_, ?_⟩,
      ⟨?_, ?_⟩, ⟨?_, ?_⟩, ⟨?_, ?_⟩⟩ <;>
    simp only [MainView.handleKey, MainView.moveUp, MainView.moveDown, MainView.getPageSize,
      hf, hc, hs, Bool.not_true, Bool.false_eq_true, if_false, List.length_nil,
      Nat.cast_zero] <;>
    (try split_ifs) <;> (try simp_all) <;> (try omega)

theorem treeView_empty_nav (v : TreeView) (c : GitClient)
    (hfl : v.files = []) (hs : v.selected = 0) (hh : 3 ≤ v.height) :
    ((v.handleKey c .kUp rune0 0).1.selected = 0 ∧ (v.handleKey c .kUp rune0 0).2 = true)
    ∧ ((v.handleKey c .kDown rune0 0).1.selected = 0 ∧ (v.handleKey c .kDown rune0 0).2 = true)
    ∧ ((v.handleKey c .kHome rune0 0).1.selected = 0 ∧ (v.handleKey c .kHome rune0 0).2 = true)
    ∧ ((v.handleKey c .kEnd rune0 0).1.selected = 0 ∧ (v.handleKey c .kEnd rune0 0).2 = true)
    ∧ ((v.handleKey c .kPgUp rune0 0).1.selected = 0 ∧ (v.handleKey c .kPgUp rune0 0).2 = true)
    ∧ ((v.handleKey c .kPgDn rune0 0).1.selected = -1
        ∧ (v.handleKey c .kPgDn rune0 0).2 = true) := by
  refine ⟨⟨?_, ?_⟩, ⟨?_, ?_⟩, ⟨?_, ?_⟩, ⟨?_, ?_⟩, ⟨?_, ?_⟩, ⟨?_, ?_⟩⟩ <;>
    simp [TreeView.handleKey, TreeView.moveUp, TreeView.moveDown, TreeView.moveTop,
      TreeView.moveBottom, TreeView.pageUp, TreeView.pageDown, TreeView.adjustScroll,
      Scrollable.setOffset, rune0, hfl, hs] <;>
    (try split_ifs) <;> (try simp_all) <;> (try omega)

theorem refsView_empty_pgdn (v : RefsView) (c : GitClient)
    (hsec : v.currentSection = 0) (hbr : v.branches = []) (hs : v.selected = 0)
    (hh : 5 ≤ v.height) :
    (v.handleKey c .kPgDn rune0 0).map (fun r => (r.1.selected, r.2)) = some (-1, true) := by
  have hred : v.handleKey c .kPgDn rune0 0 = some (v.pageDown, true) := rfl
  rw [hred]
  simp only [Option.map_some', Option.some.injEq, Prod.mk.injEq]
  refine ⟨?_, trivial⟩
  unfold RefsView.pageDown RefsView.adjustScroll RefsView.getCurrentItems
  simp [hsec, hbr, hs]
  (try split_ifs) <;> (try simp_all) <;> (try omega)

theorem helpView_empty_pgdn (v : HelpView)
    (hsecs : v.sections = []) (hs : v.selected = 0) (hh : 6 ≤ v.height) :
    (v.handleKey .kPgDn rune0 0).map (fun r => (r.1.selected, r.2)) = some (-1, true) := by
  have hred : v.handleKey .kPgDn rune0 0 = some (v.pageDown, true) := rfl
  rw [hred]
  simp only [Option.map_some', Option.some.injEq, Prod.mk.injEq]
  refine ⟨?_, trivial⟩
  unfold HelpView.pageDown HelpView.adjustScroll HelpView.getCurrentItems
  simp [hsecs, hs]
  (try split_ifs) <;> (try simp_all) <;> (try omega)

theorem statusView_nil_down_panics (v : StatusView) (c : GitClient)
    (hf : v.focused = true) (hst : v.status = none) :
    v.handleKey c .kDown rune0 0 = none ∧ v.handleKey c .kRune 'j' 0 = none := by
  constructor <;> simp [StatusView.handleKey, StatusView.moveDown, hf, hst]

/-- C2 (amended): on a non-empty commit list every MainView navigation
key preserves `0 ≤ selected < itemCount` (given position height ≥ 2, so
the derived page size is nonnegative).  `MainView.Refresh` establishes
the bound whenever it succeeds — including the no-repository reset — and
leaves the whole state (hence also an already-violated bound, reachable
via End on an empty list) unchanged when it fails.  On an empty list the
navigation keys report handled = true without panicking, and keep the
selection at 0 except that MainView End, PageDown and 'G' set it to -1;
TreeView, RefsView and HelpView likewise set `selected = -1` on PageDown
over an empty list (TreeView's other navigation keys keep 0); and
StatusView's Down/'j' with no loaded status panics on the nil status
pointer rather than being a handled no-op. -/
theorem C2_selection_bound :
    (∀ (v : MainView) (key : Key) (ch : Char) (mods : Nat),
        v.focused = true → 2 ≤ v.height → v.commits ≠ [] →
        selBound v → selBound ((v.handleKey key ch mods).1))
    ∧ (∀ (v : MainView) (c : GitClient),
        (c.isRepository = false → selBoundOrEmpty ((v.refresh c).1))
        ∧ (∀ cs, c.isRepository = true → c.getRepository = .ok () →
            c.getCommits = .ok cs → selBoundOrEmpty ((v.refresh c).1))
        ∧ (∀ e, c.isRepository = true → c.getRepository = .error e → (v.refresh c).1 = v)
        ∧ (∀ e, c.isRepository = true → c.getRepository = .ok () →
            c.getCommits = .error e → (v.refresh c).1 = v))
    ∧ (∀ v : MainView, v.focused = true → v.commits = [] → v.selected = 0 →
        2 ≤ v.height → emptyListNavBehavior v)
    ∧ (∀ (v : TreeView) (c : GitClient), v.files = [] → v.selected = 0 → 3 ≤ v.height →
        ((v.handleKey c .kUp rune0 0).1.selected = 0 ∧ (v.handleKey c .kUp rune0 0).2 = true)
        ∧ ((v.handleKey c .kDown rune0 0).1.selected = 0
            ∧ (v.handleKey c .kDown rune0 0).2 = true)
        ∧ ((v.handleKey c .kHome rune0 0).1.selected = 0
            ∧ (v.handleKey c .kHome rune0 0).2 = true)
        ∧ ((v.handleKey c .kEnd rune0 0).1.selected = 0
            ∧ (v.handleKey c .kEnd rune0 0).2 = true)
        ∧ ((v.handleKey c .kPgUp rune0 0).1.selected = 0
            ∧ (v.handleKey c .kPgUp rune0 0).2 = true)
        ∧ ((v.handleKey c .kPgDn rune0 0).1.selected = -1
            ∧ (v.handleKey c .kPgDn rune0 0).2 = true))
    ∧ (∀ (v : RefsView) (c : GitClient), v.currentSection = 0 → v.branches = [] →
        v.selected = 0 → 5 ≤ v.height →
        (v.handleKey c .kPgDn rune0 0).map (fun r => (r.1.selected, r.2)) = some (-1, true))
    ∧ (∀ v : HelpView, v.sections = [] → v.selected = 0 → 6 ≤ v.height →
        (v.handleKey .kPgDn rune0 0).map (fun r => (r.1.selected, r.2)) = some (-1, true))
    ∧ (∀ (v : StatusView) (c : GitClient), v.focused = true → v.status = none →
        v.handleKey c .kDown rune0 0 = none ∧ v.handleKey c .kRune 'j' 0 = none) :=
  ⟨mainView_handleKey_selBound, mainView_refresh_cases, mainView_empty_nav,
   treeView_empty_nav, refsView_empty_pgdn, helpView_empty_pgdn, statusView_nil_down_panics⟩

/-- C2 witness: concrete runs through every guarded part. -/
theorem C2_selection_bound_witness :
    selBound ((scenarioMain.handleKey Key.kDown rune0 0).1)
      ∧ selBoundOrEmpty ((scenarioMain.refresh offlineClient).1)
      ∧ selBoundOrEmpty ((emptyMain.refresh okClient).1)
      ∧ (scenarioMain.refresh repoErrClient).1 = scenarioMain
      ∧ (scenarioMain.refresh queryErrClient).1 = scenarioMain
      ∧ emptyListNavBehavior emptyMain
      ∧ (emptyTree.handleKey offlineClient .kPgDn rune0 0).1.selected = -1
      ∧ (emptyRefs.handleKey offlineClient .kPgDn rune0 0).map (fun r => (r.1.selected, r.2))
          = some (-1, true)
      ∧ (emptyHelp.handleKey .kPgDn rune0 0).map (fun r => (r.1.selected, r.2))
          = some (-1, true)
      ∧ statusNilFocused.handleKey offlineClient .kDown rune0 0 = none :=
  ⟨C2_selection_bound.1 scenarioMain Key.kDown rune0 0 (by decide) (by decide)
      (by decide) (by decide),
   (C2_selection_bound.2.1 scenarioMain offlineClient).1 rfl,
   (C2_selection_bound.2.1 emptyMain okClient).2.1 fiveCommits rfl rfl rfl,
   (C2_selection_bound.2.1 scenarioMain repoErrClient).2.2.1 "no repo" rfl rfl,
   (C2_selection_bound.2.1 scenarioMain queryErrClient).2.2.2 "boom" rfl rfl rfl,
   C2_selection_bound.2.2.1 emptyMain (by decide) (by decide) (by decide) (by decide),
   (C2_selection_bound.2.2.2.1 emptyTree offlineClient rfl rfl (by decide)).2.2.2.2.2.1,
   C2_selection_bound.2.2.2.2.1 emptyRefs offlineClient rfl rfl rfl (by decide),
   C2_selection_bound.2.2.2.2.2.1 emptyHelp rfl rfl (by decide),
   (C2_selection_bound.2.2.2.2.2.2 statusNilFocused offlineClient rfl rfl).1⟩

/-- C2 counterexample: on an empty list End (MainView) and PageDown
(TreeView) are handled but drive the selection to `-1`, and StatusView's
Down with no loaded status panics — violating the claimed
`selected == 0 when itemCount == 0` and "does not panic". -/
theorem C2_counterexample :
    ((emptyMain.handleKey Key.kEnd rune0 0).2 = true
      ∧ (emptyMain.handleKey Key.kEnd rune0 0).1.selected = -1
      ∧ ¬ selBoundOrEmpty ((emptyMain.handleKey Key.kEnd rune0 0).1))
      ∧ ((emptyTree.handleKey offlineClient .kPgDn rune0 0).2 = true
          ∧ (emptyTree.handleKey offlineClient .kPgDn rune0 0).1.selected = -1)
      ∧ statusNilFocused.handleKey offlineClient .kDown rune0 0 = none := by
  decide

/-! # Claim C3 -/

theorem scroll_setOffset_stuck (s : Scrollable) (e : Int)
    (hmax : s.maxOffset = 0) (hoff : s.offset = 0) :
    (s.setOffset e).offset = 0 ∧ (s.setOffset e).maxOffset = 0 := by
  unfold Scrollable.setOffset
  refine ⟨?_, ?_⟩ <;> dsimp only
  · split_ifs <;> omega
  · exact hmax

theorem treeView_adjustScroll_stuck (v : TreeView)
    (hmax : v.scroll.maxOffset = 0) (hoff : v.scroll.offset = 0) :
    v.adjustScroll.scroll.offset = 0 ∧ v.adjustScroll.scroll.maxOffset = 0 := by
  unfold TreeView.adjustScroll
  dsimp only
  split_ifs <;> (try dsimp only) <;>
    first
    | exact ⟨hoff, hmax⟩
    | exact scroll_setOffset_stuck _ _ hmax hoff

theorem treeView_moveUp_stuck (v : TreeView)
    (hmax : v.scroll.maxOffset = 0) (hoff : v.scroll.offset = 0) :
    v.moveUp.scroll.offset = 0 ∧ v.moveUp.scroll.maxOffset = 0 := by
  unfold TreeView.moveUp
  dsimp only
  split_ifs <;> (try dsimp only) <;>
    first
    | exact ⟨hoff, hmax⟩
    | exact scroll_setOffset_stuck _ _ hmax hoff

theorem treeView_moveDown_stuck (v : TreeView)
    (hmax : v.scroll.maxOffset = 0) (hoff : v.scroll.offset = 0) :
    v.moveDown.scroll.offset = 0 ∧ v.moveDown.scroll.maxOffset = 0 := by
  unfold TreeView.moveDown
  dsimp only
  split_ifs <;> (try dsimp only) <;>
    first
    | exact ⟨hoff, hmax⟩
    | exact scroll_setOffset_stuck _ _ hmax hoff

theorem treeView_moveTop_stuck (v : TreeView)
    (hmax : v.scroll.maxOffset = 0) (hoff : v.scroll.offset = 0) :
    v.moveTop.scroll.offset = 0 ∧ v.moveTop.scroll.maxOffset = 0 := by
  unfold TreeView.moveTop
  exact scroll_setOffset_stuck _ _ hmax hoff

theorem treeView_moveBottom_stuck (v : TreeView)
    (hmax : v.scroll.maxOffset = 0) (hoff : v.scroll.offset = 0) :
    v.moveBottom.scroll.offset = 0 ∧ v.moveBottom.scroll.maxOffset = 0 := by
  unfold TreeView.moveBottom
  dsimp only
  exact treeView_adjustScroll_stuck _ hmax hoff

theorem treeView_pageUp_stuck (v : TreeView)
    (hmax : v.scroll.maxOffset = 0) (hoff : v.scroll.offset = 0) :
    v.pageUp.scroll.offset = 0 ∧ v.pageUp.scroll.maxOffset = 0 := by
  unfold TreeView.pageUp
  dsimp only
  split_ifs <;> (try dsimp only) <;>
    first
    | exact ⟨hoff, hmax⟩
    | exact scroll_setOffset_stuck _ _ hmax hoff

theorem treeView_pageDown_stuck (v : TreeView)
    (hmax : v.scroll.maxOffset = 0) (hoff : v.scroll.offset = 0) :
    v.pageDown.scroll.offset = 0 ∧ v.pageDown.scroll.maxOffset = 0 := by
  unfold TreeView.pageDown
  dsimp only
  exact treeView_adjustScroll_stuck _ hmax hoff

theorem treeView_load_scroll (v : TreeView) (c : GitClient) :
    (v.load c).1.scroll = v.scroll := by
  unfold TreeView.load
  cases c.getFiles v.currentPath <;> rfl

theorem treeView_enterDirectory_stuck (v : TreeView) (c : GitClient)
    (hmax : v.scroll.maxOffset = 0) (hoff : v.scroll.offset = 0) :
    (v.enterDirectory c).1.scroll.offset = 0
      ∧ (v.enterDirectory c).1.scroll.maxOffset = 0 := by
  unfold TreeView.enterDirectory
  dsimp only
  split_ifs <;>
    first
    | exact ⟨hoff, hmax⟩
    | (rcases hget : v.files.get? v.selected.toNat with - | f <;> simp only [hget] <;>
        (try dsimp only) <;> (try split_ifs) <;>
        first
        | exact ⟨hoff, hmax⟩
        | (refine scroll_setOffset_stuck _ _ ?_ ?_ <;>
            simp only [treeView_load_scroll] <;> (try dsimp only) <;>
            first | exact hmax | exact hoff))

theorem treeView_goUp_stuck (v : TreeView) (c : GitClient)
    (hmax : v.scroll.maxOffset = 0) (hoff : v.scroll.offset = 0) :
    (v.goUpDirectory c).1.scroll.offset = 0
      ∧ (v.goUpDirectory c).1.scroll.maxOffset = 0 := by
  unfold TreeView.goUpDirectory
  dsimp only
  split_ifs <;>
    first
    | exact ⟨hoff, hmax⟩
    | (split <;>
        refine treeView_adjustScroll_stuck _ ?_ ?_ <;>
          (try dsimp only) <;> simp only [treeView_load_scroll] <;> (try dsimp only) <;>
          first | exact hmax | exact hoff)

set_option maxHeartbeats 1000000 in
theorem treeView_never_scrolls (v : TreeView) (c : GitClient) (key : Key) (ch : Char)
    (mods : Nat) (hmax : v.scroll.maxOffset = 0) (hoff : v.scroll.offset = 0) :
    (v.handleKey c key ch mods).1.scroll.offset = 0
      ∧ (v.handleKey c key ch mods).1.scroll.maxOffset = 0 := by
  unfold TreeView.handleKey
  split_ifs
  · exact treeView_moveUp_stuck v hmax hoff
  · exact treeView_moveDown_stuck v hmax hoff
  · exact treeView_moveTop_stuck v hmax hoff
  · exact treeView_moveBottom_stuck v hmax hoff
  · exact treeView_pageUp_stuck v hmax hoff
  · exact treeView_pageDown_stuck v hmax hoff
  · exact treeView_enterDirectory_stuck v c hmax hoff
  · exact treeView_goUp_stuck v c hmax hoff
  · simp only [treeView_load_scroll]
    exact ⟨hoff, hmax⟩
  · exact ⟨hoff, hmax⟩
  · exact ⟨hoff, hmax⟩

/-- C3 (corrected): for MainView — whose render maintains the scroll
bound — pressing Down with the selection on the last visible row
(`selected = offset + pageSize - 1`) and room to scroll advances the
offset to exactly `selected - pageSize + 1`, the offset does not move
while the next selection is still inside the window, and the spec's
5-item page-size-3 scenario yields exactly (4,2), then (0,0) on ToTop,
then (4,2) on ToBottom.  For TreeView, however, the claim fails: its
`Scrollable` never receives a `SetMaxOffset`, so `maxOffset` stays 0 and
every `SetOffset` is clamped back to 0 — no key ever moves its offset,
and the same 5-item page-3 sequence ends at selected = 4, offset = 0. -/
theorem C3_scroll_follow_selection :
    (∀ (v : MainView) (ch : Char) (mods : Nat),
        v.focused = true →
        v.selected = v.scroll.offset + v.getPageSize - 1 →
        v.selected < (v.commits.length : Int) - 1 →
        v.scroll.offset < v.scroll.maxOffset →
        ((v.handleKey .kDown ch mods).1.selected = v.selected + 1
          ∧ (v.handleKey .kDown ch mods).1.scroll.offset
              = (v.selected + 1) - v.getPageSize + 1))
    ∧ (∀ (v : MainView) (ch : Char) (mods : Nat),
        v.focused = true →
        v.selected + 1 < v.scroll.offset + v.getPageSize →
        v.selected < (v.commits.length : Int) - 1 →
        (v.handleKey .kDown ch mods).1.scroll.offset = v.scroll.offset)
    ∧ ((pressKeys scenarioMain [.kDown, .kDown, .kDown, .kDown]).selected = 4
        ∧ (pressKeys scenarioMain [.kDown, .kDown, .kDown, .kDown]).scroll.offset = 2
        ∧ (pressKeys scenarioMain [.kDown, .kDown, .kDown, .kDown, .kHome]).selected = 0
        ∧ (pressKeys scenarioMain [.kDown, .kDown, .kDown, .kDown, .kHome]).scroll.offset = 0
        ∧ (pressKeys scenarioMain [.kDown, .kDown, .kDown, .kDown, .kEnd]).selected = 4
        ∧ (pressKeys scenarioMain [.kDown, .kDown, .kDown, .kDown, .kEnd]).scroll.offset = 2)
    ∧ (∀ (v : TreeView) (c : GitClient) (key : Key) (ch : Char) (mods : Nat),
        v.scroll.maxOffset = 0 → v.scroll.offset = 0 →
        ((v.handleKey c key ch mods).1.scroll.offset = 0
          ∧ (v.handleKey c key ch mods).1.scroll.maxOffset = 0))
    ∧ ((pressTreeKeys scenarioTree offlineClient [.kDown, .kDown, .kDown, .kDown]).selected
          = 4
        ∧ (pressTreeKeys scenarioTree offlineClient
            [.kDown, .kDown, .kDown, .kDown]).scroll.offset = 0) := by
  refine ⟨?_, ?_, by decide, treeView_never_scrolls, by decide⟩
  · intro v ch mods hf hrow hlast hmax
    unfold MainView.getPageSize at hrow ⊢
    unfold MainView.handleKey MainView.moveDown MainView.getPageSize Scrollable.scrollDown
    simp only [hf, Bool.not_true, Bool.false_eq_true, if_false]
    constructor <;> (try dsimp only) <;> split_ifs <;> (try dsimp only) <;> omega
  · intro v ch mods hf hin hlast
    unfold MainView.getPageSize at hin
    unfold MainView.handleKey MainView.moveDown MainView.getPageSize Scrollable.scrollDown
    simp only [hf, Bool.not_true, Bool.false_eq_true, if_false]
    (try dsimp only) <;> split_ifs <;> (try dsimp only) <;> omega

/-- C3 witness: the general keep-on-screen law applied after two Down
presses in the MainView scenario, and the no-scroll law applied to the
TreeView scenario. -/
theorem C3_scroll_follow_selection_witness :
    (((pressKeys scenarioMain [Key.kDown, Key.kDown]).handleKey .kDown rune0 0).1.selected
        = (pressKeys scenarioMain [Key.kDown, Key.kDown]).selected + 1
      ∧ ((pressKeys scenarioMain [Key.kDown, Key.kDown]).handleKey
            .kDown rune0 0).1.scroll.offset
        = ((pressKeys scenarioMain [Key.kDown, Key.kDown]).selected + 1)
            - (pressKeys scenarioMain [Key.kDown, Key.kDown]).getPageSize + 1)
      ∧ ((scenarioTree.handleKey offlineClient .kDown rune0 0).1.scroll.offset = 0
          ∧ (scenarioTree.handleKey offlineClient .kDown rune0 0).1.scroll.maxOffset = 0) :=
  ⟨C3_scroll_follow_selection.1 _ rune0 0 (by decide) (by decide) (by decide) (by decide),
   C3_scroll_follow_selection.2.2.2.1 scenarioTree offlineClient .kDown rune0 0 rfl rfl⟩

/-- C3 counterexample: in the same 5-item page-size-3 scenario on the
TreeView — whose `Scrollable` never receives a `SetMaxOffset`, so
`maxOffset` is still 0 — four Down presses move the selection to the
last row but leave the offset at 0, not the claimed
`selected - pageSize + 1 = 2`. -/
theorem C3_counterexample :
    (pressTreeKeys scenarioTree offlineClient [.kDown, .kDown, .kDown, .kDown]).selected = 4
      ∧ (pressTreeKeys scenarioTree offlineClient
          [.kDown, .kDown, .kDown, .kDown]).scroll.offset = 0
      ∧ (0 : Int) ≠ 4 - 3 + 1 := by
  decide

/-! # Claim C4 -/

theorem vmFocusInv_init (kbm : KeyBindingManager) : vmFocusInv (newViewManager kbm) :=
  ⟨0, by norm_num, by norm_num, rfl, rfl, rfl, rfl, rfl, rfl, rfl⟩

theorem vmFocusInv_switchView (vm : ViewManager) (t : Int)
    (h : vmFocusInv vm) : vmFocusInv ((vm.switchView t).1) := by
  obtain ⟨u, hu0, hu6, hpat⟩ := h
  by_cases hreg : vm.registered t = true
  · have hb : 0 ≤ t ∧ t < 6 := by
      unfold ViewManager.registered at hreg
      simpa [Bool.and_eq_true, decide_eq_true_eq] using hreg
    obtain ⟨ht0, ht6⟩ := hb
    refine ⟨t, ht0, ht6, ?_⟩
    obtain ⟨hcv, h0, h1, h2, h3, h4, h5⟩ := hpat
    unfold ViewManager.switchView
    simp only [hreg, Bool.not_true, Bool.false_eq_true, if_false]
    unfold ViewManager.blurAt ViewManager.focusAt
    rw [hcv]
    interval_cases u <;> interval_cases t <;>
      simp_all [vmFocusPattern]
  · unfold ViewManager.switchView
    simp only [Bool.not_eq_true] at hreg
    simp only [hreg, Bool.not_false, if_true]
    exact ⟨u, hu0, hu6, hpat⟩

theorem focusCount_of_inv (vm : ViewManager) (h : vmFocusInv vm) : vm.focusCount = 1 := by
  obtain ⟨u, hu0, hu6, _, h0, h1, h2, h3, h4, h5⟩ := h
  unfold ViewManager.focusCount
  rw [h0, h1, h2, h3, h4, h5]
  interval_cases u <;> decide

theorem vmFocusInv_applySwitches (vm : ViewManager) (ts : List Int)
    (h : vmFocusInv vm) : vmFocusInv (applySwitches vm ts) := by
  induction ts generalizing vm with
  | nil => exact h
  | cons t rest ih =>
    simpa [applySwitches] using ih ((vm.switchView t).1) (vmFocusInv_switchView vm t h)

/-- C4 (confirmed): after initialization and any sequence of `SwitchView`
calls exactly one registered view reports focus, and `SwitchView` on an
unregistered type returns the not-found error leaving the manager — all
focus flags and the current-view pointer — exactly as it was. -/
theorem C4_focus_exclusivity :
    (∀ (kbm : KeyBindingManager) (ts : List Int),
        ViewManager.focusCount (applySwitches (newViewManager kbm) ts) = 1)
    ∧ (∀ (vm : ViewManager) (t : Int), vm.registered t = false →
        vm.switchView t = (vm, some ("view type " ++ toString t ++ " not found"))) := by
  constructor
  · intro kbm ts
    exact focusCount_of_inv _ (vmFocusInv_applySwitches _ ts (vmFocusInv_init kbm))
  · intro vm t hreg
    unfold ViewManager.switchView
    simp [hreg]

/-- C4 witness: a concrete switch sequence (including an invalid type)
keeps exactly one view focused, and switching to type 99 fails without
touching the manager. -/
theorem C4_focus_exclusivity_witness :
    ViewManager.focusCount (applySwitches initialVM [2, 99, 4, 4, 0]) = 1
      ∧ initialVM.switchView 99 = (initialVM, some "view type 99 not found") :=
  ⟨C4_focus_exclusivity.1 defaultKbm [2, 99, 4, 4, 0],
   C4_focus_exclusivity.2 initialVM 99 (by decide)⟩

/-! # Claim C5 -/

/-- C5 (confirmed): a refresh that fails on the repository handle or on
the status/commit query returns that error and leaves the cached data
and the selection untouched (the whole view state is unchanged), while
the no-repository case resets the view to its explicit empty state (nil
status / empty commit list, selection 0) and succeeds — for StatusView
and MainView alike. -/
theorem C5_refresh_error_keeps_cache :
    (∀ (v : StatusView) (c : GitClient),
        (c.isRepository = false →
          v.refresh c = ({ v with status := none, selected := 0 }, none))
        ∧ (∀ e, c.isRepository = true → c.getRepository = .error e →
            v.refresh c = (v, some ("failed to get repository: " ++ e)))
        ∧ (∀ e, c.isRepository = true → c.getRepository = .ok () →
            c.getStatus = .error e →
            v.refresh c = (v, some ("failed to get status: " ++ e))))
    ∧ (∀ (v : MainView) (c : GitClient),
        (c.isRepository = false →
          v.refresh c = ({ v with commits := [], selected := 0 }, none))
        ∧ (∀ e, c.isRepository = true → c.getRepository = .error e →
            v.refresh c = (v, some ("failed to get repository: " ++ e)))
        ∧ (∀ e, c.isRepository = true → c.getRepository = .ok () →
            c.getCommits = .error e →
            v.refresh c = (v, some ("failed to get commits: " ++ e)))) := by
  constructor
  · intro v c
    refine ⟨?_, ?_, ?_⟩
    · intro hrep
      unfold StatusView.refresh
      simp [hrep]
    · intro e hrep hr
      unfold StatusView.refresh
      simp [hrep, hr]
    · intro e hrep hr hs
      unfold StatusView.refresh
      simp [hrep, hr, hs]
  · intro v c
    refine ⟨?_, ?_, ?_⟩
    · intro hrep
      unfold MainView.refresh
      simp [hrep]
    · intro e hrep hr
      unfold MainView.refresh
      simp [hrep, hr]
    · intro e hrep hr hs
      unfold MainView.refresh
      simp [hrep, hr, hs]

/-- C5 witness: the no-repository reset and the two error cases on a
loaded status view, and the commit-query error on the scenario main
view. -/
theorem C5_refresh_error_keeps_cache_witness :
    sampleStatusView.refresh offlineClient
        = ({ sampleStatusView with status := none, selected := 0 }, none)
      ∧ sampleStatusView.refresh repoErrClient
        = (sampleStatusView, some "failed to get repository: no repo")
      ∧ sampleStatusView.refresh queryErrClient
        = (sampleStatusView, some "failed to get status: boom")
      ∧ scenarioMain.refresh queryErrClient
        = (scenarioMain, some "failed to get commits: boom") :=
  ⟨(C5_refresh_error_keeps_cache.1 sampleStatusView offlineClient).1 rfl,
   (C5_refresh_error_keeps_cache.1 sampleStatusView repoErrClient).2.1 "no repo" rfl rfl,
   (C5_refresh_error_keeps_cache.1 sampleStatusView queryErrClient).2.2 "boom" rfl rfl rfl,
   (C5_refresh_error_keeps_cache.2 scenarioMain queryErrClient).2.2 "boom" rfl rfl rfl⟩

/-! # Claim C6 -/

/-- C6 (amended): when the key-binding manager matches an event to a
global action, the quit action returns handled = **false** with the
manager untouched (the caller reads false as quit), and the refresh and
view-switch actions **self-deadlock**: `HandleKey` still holds
`mutex.RLock()` when it calls `RefreshAll`/`SwitchView`, which take
`mutex.Lock()` on the same non-reentrant RWMutex, so they block forever
instead of executing and returning handled = true.  Each generic
navigation action delegates the corresponding navigation key to the
current view (no further locking) and returns that view's own result;
unmatched events (and matched actions with no dispatch case) are
delegated to the current view unchanged.  The original "executes the
action and returns handled = true" holds for no matched global action
except navigation that the view happens to handle. -/
theorem C6_global_key_dispatch (vm : ViewManager) (c : GitClient) (key : Key)
    (ch : Char) (mods : Nat) :
    (vm.kbm.matchEvent key ch mods = some "quit" →
        vm.handleKey c key ch mods = .done vm false)
    ∧ (vm.kbm.matchEvent key ch mods = some "refresh" →
        vm.handleKey c key ch mods = .deadlocked)
    ∧ (vm.kbm.matchEvent key ch mods = some "status" →
        vm.handleKey c key ch mods = .deadlocked)
    ∧ (vm.kbm.matchEvent key ch mods = some "diff" →
        vm.handleKey c key ch mods = .deadlocked)
    ∧ (vm.kbm.matchEvent key ch mods = some "log" →
        vm.handleKey c key ch mods = .deadlocked)
    ∧ (vm.kbm.matchEvent key ch mods = some "tree" →
        vm.handleKey c key ch mods = .deadlocked)
    ∧ (vm.kbm.matchEvent key ch mods = some "refs" →
        vm.handleKey c key ch mods = .deadlocked)
    ∧ (vm.kbm.matchEvent key ch mods = some "help" →
        vm.handleKey c key ch mods = .deadlocked)
    ∧ (vm.kbm.matchEvent key ch mods = some "up" →
        vm.handleKey c key ch mods =
          (if vm.registered vm.currentView then vm.delegateKey c .kUp rune0 0
           else vm.delegateKey c key ch mods))
    ∧ (vm.kbm.matchEvent key ch mods = some "down" →
        vm.handleKey c key ch mods =
          (if vm.registered vm.currentView then vm.delegateKey c .kDown rune0 0
           else vm.delegateKey c key ch mods))
    ∧ (vm.kbm.matchEvent key ch mods = some "page-up" →
        vm.handleKey c key ch mods =
          (if vm.registered vm.currentView then vm.delegateKey c .kPgUp rune0 0
           else vm.delegateKey c key ch mods))
    ∧ (vm.kbm.matchEvent key ch mods = some "page-down" →
        vm.handleKey c key ch mods =
          (if vm.registered vm.currentView then vm.delegateKey c .kPgDn rune0 0
           else vm.delegateKey c key ch mods))
    ∧ (vm.kbm.matchEvent key ch mods = some "top" →
        vm.handleKey c key ch mods =
          (if vm.registered vm.currentView then vm.delegateKey c .kHome rune0 0
           else vm.delegateKey c key ch mods))
    ∧ (vm.kbm.matchEvent key ch mods = some "bottom" →
        vm.handleKey c key ch mods =
          (if vm.registered vm.currentView then vm.delegateKey c .kEnd rune0 0
           else vm.delegateKey c key ch mods))
    ∧ (vm.kbm.matchEvent key ch mods = none →
        vm.handleKey c key ch mods = vm.delegateKey c key ch mods) := by
  refine ⟨?_, ?_, ?_, ?_, ?_, ?_, ?_, ?_, ?_, ?_, ?_, ?_, ?_, ?_, ?_⟩ <;>
    (intro h; unfold ViewManager.handleKey; rw [h]; try rfl)

/-- C6 witness: the 'R' event is matched to the refresh action and
self-deadlocks, and the Up key is matched to the "up" action and
delegated to the focused main view. -/
theorem C6_global_key_dispatch_witness :
    initialVM.handleKey offlineClient .kRune 'R' 0 = .deadlocked
      ∧ initialVM.handleKey offlineClient .kUp rune0 0
          = (if initialVM.registered initialVM.currentView
             then initialVM.delegateKey offlineClient .kUp rune0 0
             else initialVM.delegateKey offlineClient .kUp rune0 0) :=
  ⟨(C6_global_key_dispatch initialVM offlineClient .kRune 'R' 0).2.1 rfl,
   (C6_global_key_dispatch initialVM offlineClient .kUp rune0 0).2.2.2.2.2.2.2.2.1 rfl⟩

/-- C6 counterexample: the 'q' event is matched to the global quit
action yet `HandleKey` returns handled = false, and the 's' event is
matched to the status view-switch yet `HandleKey` self-deadlocks —
refuting the claim that every matched global action is executed with
handled = true. -/
theorem C6_counterexample :
    initialVM.kbm.matchEvent .kRune 'q' 0 = some "quit"
      ∧ initialVM.handleKey offlineClient .kRune 'q' 0 = .done initialVM false
      ∧ initialVM.kbm.matchEvent .kRune 's' 0 = some "status"
      ∧ initialVM.handleKey offlineClient .kRune 's' 0 = .deadlocked :=
  ⟨rfl, rfl, rfl, rfl⟩

/-! # Claim C7 -/

/-- C7 (code bug): the claim's formula `max(0, itemCount -
viewportHeight)` is the intended recompute and MainView implements it,
but `StatusView.renderStatus` passes the unclamped `count - height` to
`SetMaxOffset`.  At the failing input — a clean status (11 lines) in a
22-row box (content height 20) — the bound passed is `11 - 20 = -9`,
`maxOffset` and the clamped offset become -9, and the draw loop then
indexes `lines[-9]` and panics, so `Render` never completes (`none`). -/
theorem C7_max_offset_recompute :
    (scenarioMain.render 0 0 80 22).scroll.maxOffset
        = max 0 ((scenarioMain.commits.length : Int) - (22 - 2))
      ∧ 0 ≤ (scenarioMain.render 0 0 80 22).scroll.maxOffset
      ∧ (buildStatusLines cleanStatus).length = 11
      ∧ ((buildStatusLines cleanStatus).length : Int) - (22 - 2) = -9
      ∧ max 0 (((buildStatusLines cleanStatus).length : Int) - (22 - 2)) = 0
      ∧ sampleStatusView.render 0 0 80 22 = none := by
  decide

/-! # Claim C8 -/

/-- C8 (amended): with no user overlay the loaded table is exactly the
built-in defaults, and the defaults violate tuple uniqueness in exactly
one place: the distinct actions "diff" and "discard" share the tuple
(KeyRune, 'd', no modifiers), so the action matched for a plain 'd'
event depends on map iteration order (the insertion-order model returns
"diff").  Every other pair of distinct actions has distinct tuples. -/
theorem C8_binding_uniqueness :
    (newKeyBindingManager { keymaps := [] }).bindings = defaultBindings
      ∧ collidingPairs defaultBindings = [("diff", "discard")]
      ∧ defaultKbm.matchEvent .kRune 'd' 0 = some "diff" :=
  ⟨rfl, by decide, rfl⟩

/-- C8 counterexample: the two distinct built-in actions "diff" and
"discard" carry identical (key, rune, modifiers) tuples, refuting "no
two distinct actions share the same tuple". -/
theorem C8_counterexample :
    ("diff", "discard") ∈ collidingPairs defaultBindings ∧ "diff" ≠ "discard" := by
  decide

/-! # Claim C9 -/

/-- C9 (amended): MainView, DiffView and StatusView ignore every key
event while unfocused — HandleKey returns false and leaves the view
untouched — but TreeView, RefsView and HelpView never consult the focus
flag and process keys even when blurred (see the counterexample). -/
theorem C9_blurred_views (m : MainView) (d : DiffView) (s : StatusView)
    (c : GitClient) (key : Key) (ch : Char) (mods : Nat) :
    (m.focused = false → m.handleKey key ch mods = (m, false))
    ∧ (d.focused = false → d.handleKey key ch mods = (d, false))
    ∧ (s.focused = false → s.handleKey c key ch mods = some (s, false)) := by
  refine ⟨?_, ?_, ?_⟩ <;> intro h
  · unfold MainView.handleKey
    simp [h]
  · unfold DiffView.handleKey
    simp [h]
  · unfold StatusView.handleKey
    simp [h]

/-- C9 witness: the three focus-checking views drop a Down key while
blurred. -/
theorem C9_blurred_views_witness :
    newMainView.handleKey .kDown rune0 0 = (newMainView, false)
      ∧ newDiffView.handleKey .kDown rune0 0 = (newDiffView, false)
      ∧ newStatusView.handleKey offlineClient .kDown rune0 0 = some (newStatusView, false) :=
  ⟨(C9_blurred_views newMainView newDiffView newStatusView offlineClient .kDown rune0 0).1 rfl,
   (C9_blurred_views newMainView newDiffView newStatusView offlineClient .kDown rune0 0).2.1 rfl,
   (C9_blurred_views newMainView newDiffView newStatusView offlineClient .kDown rune0 0).2.2 rfl⟩

/-- C9 counterexample: blurred TreeView, RefsView and HelpView all handle
the Up key (handled = true), refuting "every view variant returns false
when the view is not focused". -/
theorem C9_counterexample :
    newTreeView.focused = false
      ∧ (newTreeView.handleKey offlineClient .kUp rune0 0).2 = true
      ∧ newRefsView.focused = false
      ∧ (newRefsView.handleKey offlineClient .kUp rune0 0).map Prod.snd = some true
      ∧ newHelpView.focused = false
      ∧ (newHelpView.handleKey .kUp rune0 0).map Prod.snd = some true := by
  decide

/-! # Claim C10 -/

/-- C10 (confirmed): `GetSelectedCommit` is total and never indexes out
of bounds — it returns `nil` exactly when the selection lies outside
`[0, itemCount)` (including the `selected = -1` state reached by End on
an empty list), and otherwise returns the commit stored at the selected
index. -/
theorem C10_get_selected_commit (v : MainView) :
    (v.selected < 0 ∨ (v.commits.length : Int) ≤ v.selected →
        v.getSelectedCommit = none)
    ∧ (0 ≤ v.selected → v.selected < (v.commits.length : Int) →
        (v.getSelectedCommit = v.commits.get? v.selected.toNat
          ∧ v.getSelectedCommit.isSome = true))
    ∧ (emptyMain.handleKey .kEnd rune0 0).1.getSelectedCommit = none := by
  refine ⟨?_, ?_, by decide⟩
  · intro h
    unfold MainView.getSelectedCommit
    split_ifs with hc
    · rfl
    · exact absurd (by omega : v.selected < 0 ∨ v.selected ≥ (v.commits.length : Int)) hc
  · intro h1 h2
    unfold MainView.getSelectedCommit
    split_ifs with hc
    · exact absurd hc (by omega)
    · have hlt : v.selected.toNat < v.commits.length := by omega
      refine ⟨rfl, ?_⟩
      simp [List.getElem?_eq_getElem hlt]

/-- C10 witness: after two Down presses in the scenario the selected
commit is the one stored at the selected index and is present. -/
theorem C10_get_selected_commit_witness :
    (pressKeys scenarioMain [Key.kDown, Key.kDown]).getSelectedCommit
        = (pressKeys scenarioMain [Key.kDown, Key.kDown]).commits.get?
            (pressKeys scenarioMain [Key.kDown, Key.kDown]).selected.toNat
      ∧ (pressKeys scenarioMain [Key.kDown, Key.kDown]).getSelectedCommit.isSome = true :=
  (C10_get_selected_commit (pressKeys scenarioMain [Key.kDown, Key.kDown])).2.1
    (by decide) (by decide)

end Tig
